import Mathlib

/-!
Verification of the resilience core of the `uspto_fpd_mcp` repository.

The definitions below are a shallow embedding of the Python source:

* `CircuitBreaker` — `src/fpd_mcp/shared/circuit_breaker.py`
* `SimpleCache` / `CacheManager` — `src/fpd_mcp/shared/cache.py`
* `format_error_response` — `src/fpd_mcp/shared/error_utils.py`
* `_execute_request` / `_make_request` — `src/fpd_mcp/api/fpd_client.py`
* `is_good_extraction`, hybrid extraction — `src/fpd_mcp/api/fpd_client.py`
* `sanitize_description`, `generate_enhanced_filename`, download endpoint —
  `src/fpd_mcp/proxy/server.py`
* `RateLimiter` — modelled from the spec (the module is not in the tree).

Wall-clock instants (`time.time()`) are modelled as natural numbers; the
comparisons in the source are order comparisons on reals, which the integer
model reflects exactly (`now - t > timeout` is stated as `t + timeout < now`).
-/

namespace FPD

/-! ## Circuit breaker (`shared/circuit_breaker.py`) -/

/-- `CircuitState` enum: CLOSED / OPEN / HALF_OPEN. -/
inductive CircuitState where
  | CLOSED
  | OPEN
  | HALF_OPEN
deriving DecidableEq, Repr

/-- The mutable attributes of a `CircuitBreaker` instance. -/
structure CircuitBreaker where
  failure_threshold : Nat
  recovery_timeout : Nat
  failure_count : Nat
  success_count : Nat
  last_failure_time : Option Nat
  state : CircuitState
deriving DecidableEq, Repr

/-- `CircuitBreaker.__init__`: counters at zero, state CLOSED. -/
def CircuitBreaker.init (failure_threshold recovery_timeout : Nat) : CircuitBreaker :=
  { failure_threshold := failure_threshold
    recovery_timeout := recovery_timeout
    failure_count := 0
    success_count := 0
    last_failure_time := none
    state := .CLOSED }

/-- `_should_attempt_reset`: true when no failure recorded, or when
`time.time() - last_failure_time > recovery_timeout` (strict). -/
def CircuitBreaker.should_attempt_reset (cb : CircuitBreaker) (now : Nat) : Bool :=
  match cb.last_failure_time with
  | none => true
  | some t => decide (t + cb.recovery_timeout < now)

/-- `_open_circuit`: state OPEN, success counter cleared, failure instant stamped. -/
def CircuitBreaker.open_circuit (cb : CircuitBreaker) (now : Nat) : CircuitBreaker :=
  { cb with state := .OPEN, success_count := 0, last_failure_time := some now }

/-- `_close_circuit`: state CLOSED, both counters cleared, failure instant dropped. -/
def CircuitBreaker.close_circuit (cb : CircuitBreaker) : CircuitBreaker :=
  { cb with state := .CLOSED, failure_count := 0, success_count := 0,
            last_failure_time := none }

/-- `_on_success`: in HALF_OPEN count the success and close after the third;
in CLOSED reset the failure counter. -/
def CircuitBreaker.on_success (cb : CircuitBreaker) : CircuitBreaker :=
  if cb.state = .HALF_OPEN then
    let cb2 := { cb with success_count := cb.success_count + 1 }
    if 3 ≤ cb2.success_count then cb2.close_circuit else cb2
  else if cb.state = .CLOSED then
    { cb with failure_count := 0 }
  else cb

/-- `_on_failure`: count the failure, stamp the instant, open on a HALF_OPEN
failure or on reaching the threshold while CLOSED. -/
def CircuitBreaker.on_failure (cb : CircuitBreaker) (now : Nat) : CircuitBreaker :=
  let cb2 := { cb with failure_count := cb.failure_count + 1, last_failure_time := some now }
  if cb2.state = .HALF_OPEN then cb2.open_circuit now
  else if cb2.state = .CLOSED ∧ cb2.failure_threshold ≤ cb2.failure_count then
    cb2.open_circuit now
  else cb2

/-- The admission phase of `call` (the part under the lock before the wrapped
function runs): an OPEN breaker either transitions to HALF_OPEN (reset window
elapsed) or rejects; a HALF_OPEN breaker with three successes is closed.
`none` means the call raises the "Circuit breaker ... is OPEN" exception
without invoking the wrapped function. -/
def CircuitBreaker.preCheck (cb : CircuitBreaker) (now : Nat) : Option CircuitBreaker :=
  let step1 : Option CircuitBreaker :=
    if cb.state = .OPEN then
      if cb.should_attempt_reset now then some { cb with state := .HALF_OPEN }
      else none
    else some cb
  match step1 with
  | none => none
  | some cb2 =>
      some (if cb2.state = .HALF_OPEN ∧ 3 ≤ cb2.success_count then cb2.close_circuit else cb2)

/-- Outcome of `CircuitBreaker.call`: `rejected` = the circuit-open exception
was raised and the wrapped function was never invoked; `succeeded` /`failed` =
the wrapped function ran and returned / raised. -/
inductive CallResult where
  | rejected
  | succeeded
  | failed
deriving DecidableEq, Repr

/-- `CircuitBreaker.call`, for a wrapped function whose run is summarised by
`outcome` (`true` = returns, `false` = raises). `tCheck` is the instant of the
admission check, `tDone` the instant the failure handler would stamp. -/
def CircuitBreaker.call (cb : CircuitBreaker) (tCheck : Nat) (outcome : Bool) (tDone : Nat) :
    CallResult × CircuitBreaker :=
  match cb.preCheck tCheck with
  | none => (.rejected, cb)
  | some cb2 =>
      if outcome then (.succeeded, cb2.on_success)
      else (.failed, cb2.on_failure tDone)

/-- `reset`: manual return to the closed state. -/
def CircuitBreaker.reset (cb : CircuitBreaker) : CircuitBreaker :=
  cb.close_circuit

/-- Fold a list of calls (each `(tCheck, outcome, tDone)`) through the breaker. -/
def CircuitBreaker.runCalls (cb : CircuitBreaker) (events : List (Nat × Bool × Nat)) :
    CircuitBreaker :=
  events.foldl (fun s e => (s.call e.1 e.2.1 e.2.2).2) cb

/-- A sequence of consecutive failing calls at the given instants. -/
def CircuitBreaker.runFailures (cb : CircuitBreaker) (ts : List Nat) : CircuitBreaker :=
  ts.foldl (fun s t => (s.call t false t).2) cb

/-- A sequence of consecutive succeeding calls at the given instants. -/
def CircuitBreaker.runSuccesses (cb : CircuitBreaker) (ts : List Nat) : CircuitBreaker :=
  ts.foldl (fun s t => (s.call t true t).2) cb

lemma CircuitBreaker.preCheck_closed (cb : CircuitBreaker) (now : Nat)
    (h : cb.state = .CLOSED) : cb.preCheck now = some cb := by
  simp [CircuitBreaker.preCheck, h]

lemma CircuitBreaker.call_closed_fail (cb : CircuitBreaker) (t t' : Nat)
    (h : cb.state = .CLOSED) :
    cb.call t false t' = (.failed, cb.on_failure t') := by
  simp [CircuitBreaker.call, cb.preCheck_closed t h]

lemma CircuitBreaker.on_failure_closed_step (cb : CircuitBreaker) (t : Nat)
    (h : cb.state = .CLOSED) (hlt : cb.failure_count + 1 < cb.failure_threshold) :
    cb.on_failure t =
      { cb with failure_count := cb.failure_count + 1, last_failure_time := some t } := by
  have h2 : ¬ (cb.failure_threshold ≤ cb.failure_count + 1) := by omega
  unfold CircuitBreaker.on_failure
  simp [h, h2]

lemma CircuitBreaker.on_failure_closed_trip (cb : CircuitBreaker) (t : Nat)
    (h : cb.state = .CLOSED) (hge : cb.failure_threshold ≤ cb.failure_count + 1) :
    cb.on_failure t =
      { cb with failure_count := cb.failure_count + 1, last_failure_time := some t,
                state := .OPEN, success_count := 0 } := by
  unfold CircuitBreaker.on_failure CircuitBreaker.open_circuit
  simp [h, hge]

/-- Main lemma for the CLOSED → OPEN transition: a run of consecutive failing
calls that brings the failure count up to the threshold leaves the breaker OPEN. -/
lemma CircuitBreaker.runFailures_opens :
    ∀ (ts : List Nat) (cb : CircuitBreaker), cb.state = .CLOSED → ts ≠ [] →
      cb.failure_count + ts.length = cb.failure_threshold →
      (cb.runFailures ts).state = .OPEN := by
  intro ts
  induction ts with
  | nil => intro cb _ hne _; exact absurd rfl hne
  | cons t rest ih =>
      intro cb hclosed _ hcount
      have hstep : (cb.call t false t).2 = cb.on_failure t :=
        congrArg Prod.snd (cb.call_closed_fail t t hclosed)
      cases rest with
      | nil =>
          have hge : cb.failure_threshold ≤ cb.failure_count + 1 := by
            simp at hcount; omega
          simp [CircuitBreaker.runFailures, hstep,
                cb.on_failure_closed_trip t hclosed hge]
      | cons t2 rest2 =>
          have hlt : cb.failure_count + 1 < cb.failure_threshold := by
            simp at hcount; omega
          have hres := cb.on_failure_closed_step t hclosed hlt
          have : (cb.runFailures (t :: t2 :: rest2)) =
              ((cb.call t false t).2).runFailures (t2 :: rest2) := rfl
          rw [this, hstep, hres]
          exact ih _ (by simpa using hclosed) (by simp) (by simp at hcount ⊢; omega)

lemma CircuitBreaker.call_open_rejected (cb : CircuitBreaker) (lt t t' : Nat) (o : Bool)
    (hst : cb.state = .OPEN) (hlt : cb.last_failure_time = some lt)
    (hrec : ¬ lt + cb.recovery_timeout < t) :
    cb.call t o t' = (.rejected, cb) := by
  unfold CircuitBreaker.call CircuitBreaker.preCheck CircuitBreaker.should_attempt_reset
  simp [hst, hlt, hrec]

lemma CircuitBreaker.call_open_probe (cb : CircuitBreaker) (lt t t' : Nat) (o : Bool)
    (hst : cb.state = .OPEN) (hlt : cb.last_failure_time = some lt)
    (hsc : cb.success_count = 0)
    (hrec : lt + cb.recovery_timeout < t) :
    (cb.call t o t').1 = (if o then .succeeded else .failed) ∧
    ((cb.call t o t').2).state = (if o then .HALF_OPEN else .OPEN) := by
  unfold CircuitBreaker.call CircuitBreaker.preCheck CircuitBreaker.should_attempt_reset
  simp only [hst, hlt, hsc]
  by_cases ho : o <;>
    simp [ho, hrec, CircuitBreaker.on_success, CircuitBreaker.on_failure,
          CircuitBreaker.open_circuit]

lemma CircuitBreaker.call_half_open_fail (cb : CircuitBreaker) (t t' : Nat)
    (hst : cb.state = .HALF_OPEN) (hsc : cb.success_count < 3) :
    (cb.call t false t').1 = .failed ∧ ((cb.call t false t').2).state = .OPEN := by
  have hsc3 : ¬ 3 ≤ cb.success_count := by omega
  unfold CircuitBreaker.call CircuitBreaker.preCheck
  simp [hst, hsc3, CircuitBreaker.on_failure, CircuitBreaker.open_circuit]

lemma CircuitBreaker.call_half_open_success_step (cb : CircuitBreaker) (t t' : Nat)
    (hst : cb.state = .HALF_OPEN) (hsc : cb.success_count + 1 < 3) :
    cb.call t true t' = (.succeeded, { cb with success_count := cb.success_count + 1 }) := by
  have hsc3 : ¬ 3 ≤ cb.success_count := by omega
  have hsc3' : ¬ 3 ≤ cb.success_count + 1 := by omega
  unfold CircuitBreaker.call CircuitBreaker.preCheck
  simp [hst, hsc3, hsc3', CircuitBreaker.on_success]

lemma CircuitBreaker.call_half_open_third_success (cb : CircuitBreaker) (t t' : Nat)
    (hst : cb.state = .HALF_OPEN) (hsc : cb.success_count = 2) :
    cb.call t true t' = (.succeeded, cb.close_circuit) := by
  unfold CircuitBreaker.call CircuitBreaker.preCheck
  simp [hst, hsc, CircuitBreaker.on_success, CircuitBreaker.close_circuit]

lemma CircuitBreaker.call_closed_success (cb : CircuitBreaker) (t t' : Nat)
    (hst : cb.state = .CLOSED) :
    cb.call t true t' = (.succeeded, { cb with failure_count := 0 }) := by
  unfold CircuitBreaker.call CircuitBreaker.preCheck
  simp [hst, CircuitBreaker.on_success]

/-- C1: the circuit-breaker state machine, exactly as `CircuitBreaker.call` /
`_on_success` / `_on_failure` implement it.
(i) From the initial CLOSED state, `F` consecutive failing calls leave the
breaker OPEN. (ii) While OPEN with the recovery window not yet elapsed
(`now - last_failure_time ≤ recovery_timeout`), a call is rejected — the
distinguishable circuit-open error — without invoking the wrapped function,
and the state is unchanged. (iii) Once strictly more than `recovery_timeout`
has elapsed, the next call is admitted as a probe (not rejected) and ends
HALF_OPEN on success / OPEN on failure. (iv) A single failure while HALF_OPEN
returns the breaker to OPEN. (v) Three successes while HALF_OPEN close the
breaker with both counters reset to zero. (vi) A success while CLOSED resets
the failure counter to zero. -/
theorem circuit_breaker_transitions (F R : Nat) (hF : 1 ≤ F) :
    (∀ ts : List Nat, ts.length = F →
      ((CircuitBreaker.init F R).runFailures ts).state = .OPEN)
  ∧ (∀ (cb : CircuitBreaker) (lt t t' : Nat) (o : Bool),
      cb.state = .OPEN → cb.last_failure_time = some lt →
      ¬ lt + cb.recovery_timeout < t →
      cb.call t o t' = (.rejected, cb))
  ∧ (∀ (cb : CircuitBreaker) (lt t t' : Nat) (o : Bool),
      cb.state = .OPEN → cb.last_failure_time = some lt → cb.success_count = 0 →
      lt + cb.recovery_timeout < t →
      (cb.call t o t').1 ≠ .rejected ∧
      ((cb.call t o t').2).state = (if o then .HALF_OPEN else .OPEN))
  ∧ (∀ (cb : CircuitBreaker) (t t' : Nat),
      cb.state = .HALF_OPEN → cb.success_count < 3 →
      (cb.call t false t').1 = .failed ∧ ((cb.call t false t').2).state = .OPEN)
  ∧ (∀ (cb : CircuitBreaker) (t1 t2 t3 : Nat),
      cb.state = .HALF_OPEN → cb.success_count = 0 →
      (cb.runSuccesses [t1, t2, t3]).state = .CLOSED ∧
      (cb.runSuccesses [t1, t2, t3]).failure_count = 0 ∧
      (cb.runSuccesses [t1, t2, t3]).success_count = 0)
  ∧ (∀ (cb : CircuitBreaker) (t t' : Nat),
      cb.state = .CLOSED →
      cb.call t true t' = (.succeeded, { cb with failure_count := 0 })) := by
  refine ⟨?_, ?_, ?_, ?_, ?_, ?_⟩
  · intro ts hlen
    exact CircuitBreaker.runFailures_opens ts (CircuitBreaker.init F R) rfl
      (by intro hnil; rw [hnil] at hlen; simp at hlen; omega)
      (by simpa [CircuitBreaker.init] using hlen)
  · intro cb lt t t' o hst hlt hrec
    exact cb.call_open_rejected lt t t' o hst hlt hrec
  · intro cb lt t t' o hst hlt hsc hrec
    have h := cb.call_open_probe lt t t' o hst hlt hsc hrec
    refine ⟨?_, h.2⟩
    rw [h.1]; by_cases ho : o <;> simp [ho]
  · intro cb t t' hst hsc
    exact cb.call_half_open_fail t t' hst hsc
  · intro cb t1 t2 t3 hst hsc
    have h1 := cb.call_half_open_success_step t1 t1 hst (by omega)
    have hst2 : ({ cb with success_count := cb.success_count + 1 } :
        CircuitBreaker).state = .HALF_OPEN := by simpa using hst
    have h2 := CircuitBreaker.call_half_open_success_step _ t2 t2 hst2 (by simp [hsc])
    have hst3 : ({ cb with success_count := cb.success_count + 1 + 1 } :
        CircuitBreaker).state = .HALF_OPEN := by simpa using hst
    have h3 := CircuitBreaker.call_half_open_third_success _ t3 t3 hst3 (by simp [hsc])
    simp only [CircuitBreaker.runSuccesses, List.foldl_cons, List.foldl_nil]
    rw [h1]; dsimp only
    rw [h2]; dsimp only
    rw [h3]; dsimp only
    simp [CircuitBreaker.close_circuit]
  · intro cb t t' hst
    exact cb.call_closed_success t t' hst

/-- Witness for `circuit_breaker_transitions` at `F = 2`, `R = 60`, exercising
the failure run, the fail-fast rejection, the recovery probe, the HALF_OPEN
reopen, the triple-success close, and the CLOSED success reset. -/
theorem circuit_breaker_transitions_witness :
    (((CircuitBreaker.init 2 60).runFailures [10, 20]).state = .OPEN)
  ∧ ((CircuitBreaker.mk 2 60 2 0 (some 20) .OPEN).call 50 true 50 =
      (.rejected, CircuitBreaker.mk 2 60 2 0 (some 20) .OPEN))
  ∧ (((CircuitBreaker.mk 2 60 2 0 (some 20) .OPEN).call 81 true 81).1 ≠ .rejected ∧
      (((CircuitBreaker.mk 2 60 2 0 (some 20) .OPEN).call 81 true 81).2).state =
        (if true then CircuitState.HALF_OPEN else CircuitState.OPEN))
  ∧ (((CircuitBreaker.mk 2 60 2 1 (some 20) .HALF_OPEN).call 82 false 82).1 = .failed ∧
      (((CircuitBreaker.mk 2 60 2 1 (some 20) .HALF_OPEN).call 82 false 82).2).state = .OPEN)
  ∧ (((CircuitBreaker.mk 2 60 2 0 (some 20) .HALF_OPEN).runSuccesses [81, 82, 83]).state = .CLOSED ∧
      ((CircuitBreaker.mk 2 60 2 0 (some 20) .HALF_OPEN).runSuccesses [81, 82, 83]).failure_count = 0 ∧
      ((CircuitBreaker.mk 2 60 2 0 (some 20) .HALF_OPEN).runSuccesses [81, 82, 83]).success_count = 0)
  ∧ ((CircuitBreaker.mk 2 60 1 0 none .CLOSED).call 90 true 90 =
      (.succeeded, { CircuitBreaker.mk 2 60 1 0 none .CLOSED with failure_count := 0 })) := by
  have h := circuit_breaker_transitions 2 60 (by decide)
  exact ⟨h.1 [10, 20] (by decide),
         h.2.1 _ 20 50 50 true rfl rfl (by decide),
         h.2.2.1 _ 20 81 81 true rfl rfl rfl (by decide),
         h.2.2.2.1 _ 82 82 rfl (by decide),
         h.2.2.2.2.1 _ 81 82 83 rfl rfl,
         h.2.2.2.2.2 _ 90 90 rfl⟩

/-! ### C10: reachable-state invariant of the breaker -/

/-- One completed operation on a breaker: a `call` (any instants, any outcome
of the wrapped function), or a bare `_on_success` / `_on_failure` / `reset`. -/
inductive CircuitBreaker.Step : CircuitBreaker → CircuitBreaker → Prop where
  | call (cb : CircuitBreaker) (t : Nat) (o : Bool) (t' : Nat) :
      CircuitBreaker.Step cb ((cb.call t o t').2)
  | on_success (cb : CircuitBreaker) : CircuitBreaker.Step cb cb.on_success
  | on_failure (cb : CircuitBreaker) (t : Nat) : CircuitBreaker.Step cb (cb.on_failure t)
  | reset (cb : CircuitBreaker) : CircuitBreaker.Step cb cb.reset

/-- States reachable from `CircuitBreaker.init F R` by completed operations. -/
inductive CircuitBreaker.Reachable (F R : Nat) : CircuitBreaker → Prop where
  | init : CircuitBreaker.Reachable F R (CircuitBreaker.init F R)
  | step {cb cb' : CircuitBreaker} : CircuitBreaker.Reachable F R cb →
      CircuitBreaker.Step cb cb' → CircuitBreaker.Reachable F R cb'

/-- The inductive invariant (slightly stronger than the claim: the success
counter never exceeds 2, because the third success closes the circuit). -/
def CircuitBreaker.Inv (cb : CircuitBreaker) : Prop :=
  1 ≤ cb.failure_threshold ∧
  cb.success_count ≤ 2 ∧
  (cb.success_count ≠ 0 → cb.state = .HALF_OPEN) ∧
  (cb.state = .CLOSED → cb.failure_count < cb.failure_threshold) ∧
  (cb.state = .OPEN → cb.last_failure_time ≠ none)

lemma CircuitBreaker.on_success_half_open_step (cb : CircuitBreaker)
    (hho : cb.state = .HALF_OPEN) (hlt : cb.success_count + 1 < 3) :
    cb.on_success = { cb with success_count := cb.success_count + 1 } := by
  have h3c : ¬ 3 ≤ cb.success_count + 1 := by omega
  unfold CircuitBreaker.on_success
  simp [hho, h3c]

lemma CircuitBreaker.on_success_half_open_close (cb : CircuitBreaker)
    (hho : cb.state = .HALF_OPEN) (hge : 3 ≤ cb.success_count + 1) :
    cb.on_success = cb.close_circuit := by
  unfold CircuitBreaker.on_success CircuitBreaker.close_circuit
  simp [hho, hge]

lemma CircuitBreaker.on_success_closed (cb : CircuitBreaker)
    (hcl : cb.state = .CLOSED) :
    cb.on_success = { cb with failure_count := 0 } := by
  unfold CircuitBreaker.on_success
  simp [hcl]

lemma CircuitBreaker.on_success_open (cb : CircuitBreaker)
    (hop : cb.state = .OPEN) : cb.on_success = cb := by
  unfold CircuitBreaker.on_success
  simp [hop]

lemma CircuitBreaker.on_failure_half_open (cb : CircuitBreaker) (t : Nat)
    (hho : cb.state = .HALF_OPEN) :
    cb.on_failure t = { cb with failure_count := cb.failure_count + 1,
                                success_count := 0, last_failure_time := some t,
                                state := .OPEN } := by
  unfold CircuitBreaker.on_failure CircuitBreaker.open_circuit
  simp [hho]

lemma CircuitBreaker.on_failure_open (cb : CircuitBreaker) (t : Nat)
    (hop : cb.state = .OPEN) :
    cb.on_failure t = { cb with failure_count := cb.failure_count + 1,
                                last_failure_time := some t } := by
  unfold CircuitBreaker.on_failure
  simp [hop]

lemma CircuitBreaker.preCheck_open_no_reset (cb : CircuitBreaker) (now : Nat)
    (hop : cb.state = .OPEN) (hres : cb.should_attempt_reset now = false) :
    cb.preCheck now = none := by
  unfold CircuitBreaker.preCheck
  simp [hop, hres]

lemma CircuitBreaker.preCheck_open_reset (cb : CircuitBreaker) (now : Nat)
    (hop : cb.state = .OPEN) (hres : cb.should_attempt_reset now = true)
    (hsc : cb.success_count < 3) :
    cb.preCheck now = some { cb with state := .HALF_OPEN } := by
  have h3c : ¬ 3 ≤ cb.success_count := by omega
  unfold CircuitBreaker.preCheck
  simp [hop, hres, h3c]

lemma CircuitBreaker.preCheck_half_open (cb : CircuitBreaker) (now : Nat)
    (hho : cb.state = .HALF_OPEN) (hsc : cb.success_count < 3) :
    cb.preCheck now = some cb := by
  have h3c : ¬ 3 ≤ cb.success_count := by omega
  unfold CircuitBreaker.preCheck
  simp [hho, h3c]

lemma CircuitBreaker.Inv.close_circuit {cb : CircuitBreaker} (h : cb.Inv) :
    cb.close_circuit.Inv := by
  obtain ⟨h1, -, -, -, -⟩ := h
  exact ⟨h1, by simp [CircuitBreaker.close_circuit],
    by simp [CircuitBreaker.close_circuit],
    by simp [CircuitBreaker.close_circuit]; omega,
    by simp [CircuitBreaker.close_circuit]⟩

lemma CircuitBreaker.Inv.on_success {cb : CircuitBreaker} (h : cb.Inv) :
    cb.on_success.Inv := by
  obtain ⟨h1, h2, h3, h4, h5⟩ := h
  cases hst : cb.state with
  | CLOSED =>
      have hsc0 : cb.success_count = 0 := by
        by_contra hne; have hho := h3 hne; rw [hst] at hho; simp at hho
      rw [cb.on_success_closed hst]
      exact ⟨h1, by simpa using h2, by simp [hsc0], by simp [hst]; omega, by simp [hst]⟩
  | OPEN => rw [cb.on_success_open hst]; exact ⟨h1, h2, h3, h4, h5⟩
  | HALF_OPEN =>
      by_cases hge : 3 ≤ cb.success_count + 1
      · rw [cb.on_success_half_open_close hst hge]
        exact CircuitBreaker.Inv.close_circuit ⟨h1, h2, h3, h4, h5⟩
      · rw [cb.on_success_half_open_step hst (by omega)]
        exact ⟨h1, by simp; omega, by simp [hst], by simp [hst], by simp [hst]⟩

lemma CircuitBreaker.Inv.on_failure {cb : CircuitBreaker} (h : cb.Inv) (t : Nat) :
    (cb.on_failure t).Inv := by
  obtain ⟨h1, h2, h3, h4, h5⟩ := h
  cases hst : cb.state with
  | CLOSED =>
      have hsc0 : cb.success_count = 0 := by
        by_contra hne; have hho := h3 hne; rw [hst] at hho; simp at hho
      by_cases hge : cb.failure_threshold ≤ cb.failure_count + 1
      · rw [cb.on_failure_closed_trip t hst hge]
        exact ⟨h1, by simp, by simp, by simp, by simp⟩
      · rw [cb.on_failure_closed_step t hst (by omega)]
        exact ⟨h1, by simpa using h2, by simp [hsc0], by simp [hst]; omega, by simp [hst]⟩
  | OPEN =>
      have hsc0 : cb.success_count = 0 := by
        by_contra hne; have hho := h3 hne; rw [hst] at hho; simp at hho
      rw [cb.on_failure_open t hst]
      exact ⟨h1, by simpa using h2, by simp [hsc0], by simp [hst], by simp⟩
  | HALF_OPEN =>
      rw [cb.on_failure_half_open t hst]
      exact ⟨h1, by simp, by simp, by simp, by simp⟩

lemma CircuitBreaker.Inv.preCheck {cb cb2 : CircuitBreaker} (h : cb.Inv) (t : Nat)
    (hpre : cb.preCheck t = some cb2) : cb2.Inv := by
  obtain ⟨h1, h2, h3, h4, h5⟩ := h
  cases hst : cb.state with
  | CLOSED =>
      rw [cb.preCheck_closed t hst] at hpre
      obtain rfl := Option.some_inj.mp hpre
      exact ⟨h1, h2, h3, h4, h5⟩
  | OPEN =>
      have hsc0 : cb.success_count = 0 := by
        by_contra hne; have hho := h3 hne; rw [hst] at hho; simp at hho
      cases hres : cb.should_attempt_reset t with
      | false =>
          rw [cb.preCheck_open_no_reset t hst hres] at hpre
          exact absurd hpre (by simp)
      | true =>
          rw [cb.preCheck_open_reset t hst hres (by omega)] at hpre
          obtain rfl := Option.some_inj.mp hpre
          exact ⟨h1, by simpa using h2, by simp, by simp, by simp⟩
  | HALF_OPEN =>
      rw [cb.preCheck_half_open t hst (by omega)] at hpre
      obtain rfl := Option.some_inj.mp hpre
      exact ⟨h1, h2, h3, h4, h5⟩

lemma CircuitBreaker.Inv.call {cb : CircuitBreaker} (h : cb.Inv) (t : Nat) (o : Bool)
    (t' : Nat) : ((cb.call t o t').2).Inv := by
  unfold CircuitBreaker.call
  cases hpre : cb.preCheck t with
  | none => exact h
  | some cb2 =>
      have h2 : cb2.Inv := h.preCheck t hpre
      by_cases ho : o <;> simp only [ho]
      · exact h2.on_success
      · simp only [Bool.false_eq_true, if_false]
        exact h2.on_failure t'

lemma CircuitBreaker.inv_of_reachable {F R : Nat} (hF : 1 ≤ F) {cb : CircuitBreaker}
    (hr : CircuitBreaker.Reachable F R cb) : cb.Inv := by
  induction hr with
  | init => exact ⟨hF, by simp [CircuitBreaker.init], by simp [CircuitBreaker.init],
      by simp [CircuitBreaker.init]; omega, by simp [CircuitBreaker.init]⟩
  | step _ hstep ih =>
      cases hstep with
      | call t o t' => exact ih.call t o t'
      | on_success => exact ih.on_success
      | on_failure t => exact ih.on_failure t
      | reset => exact ih.close_circuit


theorem circuit_breaker_invariant (F R : Nat) (cb : CircuitBreaker) (hF : 1 ≤ F)
    (hr : CircuitBreaker.Reachable F R cb) :
    cb.success_count ≤ 3 ∧
    (cb.success_count ≠ 0 → cb.state = .HALF_OPEN) ∧
    (cb.state = .CLOSED → cb.failure_count < cb.failure_threshold) ∧
    (cb.state = .OPEN → cb.last_failure_time ≠ none) := by
  obtain ⟨-, h2, h3, h4, h5⟩ := CircuitBreaker.inv_of_reachable hF hr
  exact ⟨by omega, h3, h4, h5⟩

/-- Witness for `circuit_breaker_invariant`: the state after one failing call
on the initial breaker with threshold 1 (which opens the circuit). -/
theorem circuit_breaker_invariant_witness :
    (((CircuitBreaker.init 1 60).call 5 false 7).2).success_count ≤ 3 ∧
    ((((CircuitBreaker.init 1 60).call 5 false 7).2).success_count ≠ 0 →
      (((CircuitBreaker.init 1 60).call 5 false 7).2).state = .HALF_OPEN) ∧
    ((((CircuitBreaker.init 1 60).call 5 false 7).2).state = .CLOSED →
      (((CircuitBreaker.init 1 60).call 5 false 7).2).failure_count <
        (((CircuitBreaker.init 1 60).call 5 false 7).2).failure_threshold) ∧
    ((((CircuitBreaker.init 1 60).call 5 false 7).2).state = .OPEN →
      (((CircuitBreaker.init 1 60).call 5 false 7).2).last_failure_time ≠ none) :=
  circuit_breaker_invariant 1 60 _ (by decide)
    (CircuitBreaker.Reachable.step CircuitBreaker.Reachable.init
      (CircuitBreaker.Step.call _ 5 false 7))

/-! ## A model of the Python values flowing through the cache and client -/

/-- JSON-serialisable Python values (strings, ints, bools, `None`, lists,
dicts with string keys — the shapes that reach the response cache). -/
inductive PyVal where
  | str : String → PyVal
  | int : Int → PyVal
  | bool : Bool → PyVal
  | NoneV : PyVal
  | list : List PyVal → PyVal
  | dict : List (String × PyVal) → PyVal

/-- Python truthiness for the values above. -/
def PyVal.truthy : PyVal → Bool
  | .str s => !s.isEmpty
  | .int n => n != 0
  | .bool b => b
  | .NoneV => false
  | .list l => !l.isEmpty
  | .dict l => !l.isEmpty

/-- First binding of a key in an association list (Python dict lookup). -/
def assocFind : List (String × PyVal) → String → Option PyVal
  | [], _ => none
  | (k', v) :: rest, k => if k' = k then some v else assocFind rest k

/-- `d.get(k)`: `none` when `d` has no such key (Python would yield `None`). -/
def PyVal.get1 (v : PyVal) (k : String) : Option PyVal :=
  match v with
  | .dict l => assocFind l k
  | _ => none

/-- `d[k] = v` on a dict: overwrite in place or append (Python dict semantics). -/
def assocSet : List (String × PyVal) → String → PyVal → List (String × PyVal)
  | [], k, v => [(k, v)]
  | (k', v') :: rest, k, v =>
      if k' = k then (k', v) :: rest else (k', v') :: assocSet rest k v

def PyVal.setItem (d : PyVal) (k : String) (v : PyVal) : PyVal :=
  match d with
  | .dict l => .dict (assocSet l k v)
  | x => x

/-- `isinstance(result, dict) and result.get('error')`: the error-shaped test
used by `CacheManager.set` and `_make_request`. -/
def isErrorDict (v : PyVal) : Bool :=
  match v with
  | .dict l => (assocFind l "error").elim false PyVal.truthy
  | _ => false

/-- `format_error_response` (`shared/error_utils.py`): the stable error shape
`{error, status_code, success: false, request_id?}`. The `LogSanitizer` pass
and the production-mode message rewriting only change the message text, which
no claim depends on; the message is carried verbatim. -/
def format_error_response (message : String) (status_code : Int)
    (request_id : Option String) : PyVal :=
  .dict ([("error", .str message), ("status_code", .int status_code),
          ("success", .bool false)] ++
         (match request_id with
          | some rid => [("request_id", .str rid)]
          | none => []))

/-! ## Response cache (`shared/cache.py`)

`CacheManager` prefers `cachetools.TTLCache` when that import succeeds and
falls back to the in-repository `SimpleCache`; the observable `get`/`set`
semantics the claims rely on (TTL expiry, LRU capacity bound) are the ones
`SimpleCache` implements, and that in-tree code is what is embedded here. -/

/-- Minimal JSON string rendering (quote + escape of `"` and `\`). Only the
determinism of the rendering matters to the claims. -/
def escapeChar (c : Char) : String :=
  if c = '"' then "\\\"" else if c = '\\' then "\\\\" else String.singleton c

def jsonString (s : String) : String :=
  "\"" ++ String.join (s.toList.map escapeChar) ++ "\""

mutual

/-- `json.dumps` on a `PyVal`, with Python's default `", "` / `": "`
separators. `sort_keys=True` sorts every dict's keys; in this embedding the
dicts that a cache key serialises are built with their keys already in sorted
order (the fixed top-level `args` < `kwargs` < `method`, and `kwargs` already
passed through `sorted(...)`), so the rendering emits fields in place. -/
def jsonDumps : PyVal → String
  | .str s => jsonString s
  | .int n => toString n
  | .bool b => if b then "true" else "false"
  | .NoneV => "null"
  | .list l => "[" ++ jsonItems l ++ "]"
  | .dict l => "\x7b" ++ jsonFields l ++ "\x7d"

def jsonItems : List PyVal → String
  | [] => ""
  | [v] => jsonDumps v
  | v :: vs => jsonDumps v ++ ", " ++ jsonItems vs

def jsonFields : List (String × PyVal) → String
  | [] => ""
  | [(k, v)] => jsonString k ++ ": " ++ jsonDumps v
  | (k, v) :: kvs => jsonString k ++ ": " ++ jsonDumps v ++ ", " ++ jsonFields kvs

end

/-- `sorted(kwargs.items())`: Python sorts the `(key, value)` tuples
lexicographically; keys in a dict are unique, so only the key comparison
ever decides. -/
def sortPairs (l : List (String × PyVal)) : List (String × PyVal) :=
  List.insertionSort (fun a b => a.1 ≤ b.1) l

/-- The `'kwargs': sorted(kwargs.items())` entry: a JSON array of
`[key, value]` pairs. -/
def kwargsItems (kwargs : List (String × PyVal)) : PyVal :=
  .list ((sortPairs kwargs).map (fun p => .list [.str p.1, p.2]))

/-- `CacheManager._generate_cache_key`: the canonical serialisation of
`{'method': ..., 'args': ..., 'kwargs': sorted(kwargs.items())}` with
`sort_keys=True`. Python additionally maps the string through
`hashlib.md5(...).hexdigest()`; MD5 is a pure function of the string, so
equal canonical strings give equal keys, which is all the cache addressing
relies on. The canonical string itself stands for the key. -/
def generate_cache_key (method_name : String) (args : List PyVal)
    (kwargs : List (String × PyVal)) : String :=
  jsonDumps (.dict [("args", .list args), ("kwargs", kwargsItems kwargs),
                    ("method", .str method_name)])

/-- One stored entry: key, value, absolute expiry instant. -/
def lookup3 : List (String × PyVal × Nat) → String → Option (PyVal × Nat)
  | [], _ => none
  | (k', ve) :: rest, k => if k' = k then some ve else lookup3 rest k

/-- `del cache[key]`. -/
def erase3 (l : List (String × PyVal × Nat)) (k : String) :
    List (String × PyVal × Nat) :=
  l.filter (fun p => p.1 != k)

/-- `cache[key] = ve`: overwrite in place or append. -/
def set3 : List (String × PyVal × Nat) → String → PyVal × Nat →
    List (String × PyVal × Nat)
  | [], k, ve => [(k, ve)]
  | (k', ve') :: rest, k, ve =>
      if k' = k then (k', ve) :: rest else (k', ve') :: set3 rest k ve

/-- `SimpleCache` state: the dict `key -> (value, expiry_time)` and the LRU
access order. -/
structure SimpleCache where
  maxsize : Nat
  ttl : Nat
  cache : List (String × PyVal × Nat)
  access_order : List String

/-- The `while len(cache) > maxsize` eviction loop of `SimpleCache.set`:
pop the front of the access order and delete that key. (Python would raise
`IndexError` on an empty access order; with the two structures in sync —
which every operation here preserves — that is unreachable, and the model
returns the state unchanged.) -/
def evictLoop (maxsize : Nat) : List (String × PyVal × Nat) → List String →
    List (String × PyVal × Nat) × List String
  | cache, [] => (cache, [])
  | cache, oldest :: rest =>
      if maxsize < cache.length then evictLoop maxsize (erase3 cache oldest) rest
      else (cache, oldest :: rest)

/-- `SimpleCache.get`: a hit before expiry refreshes LRU order; an expired
entry is deleted; otherwise `None`. -/
def SimpleCache.get (sc : SimpleCache) (key : String) (now : Nat) :
    Option PyVal × SimpleCache :=
  match lookup3 sc.cache key with
  | none => (none, sc)
  | some (value, expiry_time) =>
      if now < expiry_time then
        (some value,
         { sc with access_order := sc.access_order.erase key ++ [key] })
      else
        (none, { sc with cache := erase3 sc.cache key,
                         access_order := sc.access_order.erase key })

/-- `SimpleCache.set`: stamp `expiry = now + ttl`, refresh LRU order, store,
then evict while over capacity. -/
def SimpleCache.set (sc : SimpleCache) (key : String) (value : PyVal) (now : Nat) :
    SimpleCache :=
  let expiry_time := now + sc.ttl
  let order1 := if (lookup3 sc.cache key).isSome then sc.access_order.erase key
                else sc.access_order
  let cache1 := set3 sc.cache key (value, expiry_time)
  let ev := evictLoop sc.maxsize cache1 (order1 ++ [key])
  { sc with cache := ev.1, access_order := ev.2 }

/-- `CacheManager`: key generation plus the TTL store. -/
structure CacheManager where
  ttl : Nat
  cache : SimpleCache

def CacheManager.init (maxsize ttl : Nat) : CacheManager :=
  { ttl := ttl,
    cache := { maxsize := maxsize, ttl := ttl, cache := [], access_order := [] } }

def CacheManager.get (cm : CacheManager) (method_name : String) (args : List PyVal)
    (kwargs : List (String × PyVal)) (now : Nat) : Option PyVal × CacheManager :=
  let r := cm.cache.get (generate_cache_key method_name args kwargs) now
  (r.1, { cm with cache := r.2 })

/-- `CacheManager.set`: error-shaped results are dropped before the store. -/
def CacheManager.set (cm : CacheManager) (method_name : String) (result : PyVal)
    (args : List PyVal) (kwargs : List (String × PyVal)) (now : Nat) : CacheManager :=
  if isErrorDict result then cm
  else { cm with
         cache := cm.cache.set (generate_cache_key method_name args kwargs) result now }

def CacheManager.clear (cm : CacheManager) : CacheManager :=
  { cm with cache := { cm.cache with cache := [], access_order := [] } }

/-! ### C6: error-shaped responses never enter the cache -/

/-- Cache states reachable through the `CacheManager` API from an empty cache. -/
inductive CacheReachable : CacheManager → Prop where
  | init (maxsize ttl : Nat) : CacheReachable (CacheManager.init maxsize ttl)
  | set {cm : CacheManager} (m : String) (r : PyVal) (args : List PyVal)
      (kw : List (String × PyVal)) (now : Nat) :
      CacheReachable cm → CacheReachable (cm.set m r args kw now)
  | get {cm : CacheManager} (m : String) (args : List PyVal)
      (kw : List (String × PyVal)) (now : Nat) :
      CacheReachable cm → CacheReachable (cm.get m args kw now).2
  | clear {cm : CacheManager} : CacheReachable cm → CacheReachable cm.clear

lemma mem_set3 {l : List (String × PyVal × Nat)} {k : String} {ve : PyVal × Nat}
    {p : String × PyVal × Nat} (h : p ∈ set3 l k ve) : p.2 = ve ∨ p ∈ l := by
  induction l with
  | nil =>
      simp [set3] at h
      subst h; exact Or.inl rfl
  | cons q rest ih =>
      obtain ⟨qk, qv⟩ := q
      by_cases hk : qk = k
      · rw [show set3 ((qk, qv) :: rest) k ve = (qk, ve) :: rest from by
            simp [set3, hk]] at h
        rcases List.mem_cons.mp h with h | h
        · subst h; exact Or.inl rfl
        · exact Or.inr (List.mem_cons_of_mem _ h)
      · rw [show set3 ((qk, qv) :: rest) k ve = (qk, qv) :: set3 rest k ve from by
            simp [set3, hk]] at h
        rcases List.mem_cons.mp h with h | h
        · subst h; exact Or.inr (List.mem_cons_self _ _)
        · rcases ih h with h | h
          · exact Or.inl h
          · exact Or.inr (List.mem_cons_of_mem _ h)

lemma mem_evictLoop {maxsize : Nat} :
    ∀ {order : List String} {cache : List (String × PyVal × Nat)}
      {p : String × PyVal × Nat}, p ∈ (evictLoop maxsize cache order).1 → p ∈ cache := by
  intro order
  induction order with
  | nil => intro cache p h; simpa [evictLoop] using h
  | cons oldest rest ih =>
      intro cache p h
      by_cases hlen : maxsize < cache.length
      · rw [show evictLoop maxsize cache (oldest :: rest) =
            evictLoop maxsize (erase3 cache oldest) rest from by simp [evictLoop, hlen]] at h
        exact List.mem_of_mem_filter (ih h)
      · rw [show evictLoop maxsize cache (oldest :: rest) = (cache, oldest :: rest) from by
            simp [evictLoop, hlen]] at h
        exact h

/-- Only values that passed the error check negatively are stored. -/
def CacheGood (cm : CacheManager) : Prop :=
  ∀ p ∈ cm.cache.cache, isErrorDict p.2.1 = false

lemma CacheGood.set {cm : CacheManager} (h : CacheGood cm) (m : String) (r : PyVal)
    (args : List PyVal) (kw : List (String × PyVal)) (now : Nat) :
    CacheGood (cm.set m r args kw now) := by
  unfold CacheManager.set
  by_cases herr : isErrorDict r = true
  · rw [if_pos herr]; exact h
  · rw [if_neg herr]
    intro p hp
    simp only [SimpleCache.set] at hp
    rcases mem_set3 (mem_evictLoop hp) with hpe | hpl
    · rw [show p.2.1 = r from congrArg Prod.fst hpe]
      simpa using herr
    · exact h p hpl

lemma CacheGood.get {cm : CacheManager} (h : CacheGood cm) (m : String)
    (args : List PyVal) (kw : List (String × PyVal)) (now : Nat) :
    CacheGood (cm.get m args kw now).2 := by
  unfold CacheManager.get SimpleCache.get
  cases hl : lookup3 cm.cache.cache (generate_cache_key m args kw) with
  | none => exact h
  | some ve =>
      by_cases hfresh : now < ve.2
      · simp only [hl, hfresh]
        intro p hp
        exact h p (by simpa using hp)
      · simp only [hl, hfresh]
        intro p hp
        have hp' : p ∈ erase3 cm.cache.cache (generate_cache_key m args kw) := by
          simpa using hp
        exact h p (List.mem_of_mem_filter hp')

lemma cacheGood_of_reachable {cm : CacheManager} (h : CacheReachable cm) :
    CacheGood cm := by
  induction h with
  | init maxsize ttl => intro p hp; simp [CacheManager.init] at hp
  | set m r args kw now _ ih => exact ih.set m r args kw now
  | get m args kw now _ ih => exact ih.get m args kw now
  | clear _ ih => intro p hp; simp [CacheManager.clear] at hp

/-- C6: `CacheManager.set` is the identity on the whole cache state whenever
the result is error-shaped (a dict whose `error` entry is truthy), and
consequently every entry of every reachable cache state is non-error-shaped. -/
theorem cache_never_stores_errors :
    (∀ (cm : CacheManager) (m : String) (r : PyVal) (args : List PyVal)
       (kw : List (String × PyVal)) (now : Nat),
       isErrorDict r = true → cm.set m r args kw now = cm)
  ∧ (∀ cm : CacheManager, CacheReachable cm →
       ∀ p ∈ cm.cache.cache, isErrorDict p.2.1 = false) := by
  constructor
  · intro cm m r args kw now herr
    unfold CacheManager.set
    simp [herr]
  · intro cm h
    exact cacheGood_of_reachable h

/-- Witness for `cache_never_stores_errors`: a concrete error-shaped response
is dropped, and the sole entry of a concrete reachable cache is non-error. -/
theorem cache_never_stores_errors_witness :
    (isErrorDict (.dict [("error", .str "boom")]) = true ∧
     (CacheManager.init 10 600).set "get_petition" (.dict [("error", .str "boom")]) [] [] 0 =
       CacheManager.init 10 600)
  ∧ isErrorDict ((generate_cache_key "get_petition" [] [],
        PyVal.dict [("success", .bool true)], (600 : Nat)) :
        String × PyVal × Nat).2.1 = false :=
  ⟨⟨rfl, cache_never_stores_errors.1 (CacheManager.init 10 600) "get_petition"
      (.dict [("error", .str "boom")]) [] [] 0 rfl⟩,
   cache_never_stores_errors.2
     ((CacheManager.init 10 600).set "get_petition" (.dict [("success", .bool true)]) [] [] 0)
     (CacheReachable.set "get_petition" (.dict [("success", .bool true)]) [] [] 0
       (CacheReachable.init 10 600))
     _ (List.Mem.head _)⟩

/-! ### C7: canonical cache keys -/

instance : IsTotal (String × PyVal) (fun a b => a.1 ≤ b.1) :=
  ⟨fun a b => le_total a.1 b.1⟩

instance : IsTrans (String × PyVal) (fun a b => a.1 ≤ b.1) :=
  ⟨fun _ _ _ h1 h2 => le_trans h1 h2⟩

instance : IsAntisymm (String × PyVal) (fun a b => a.1 < b.1) :=
  ⟨fun _ _ h1 h2 => absurd (lt_trans h1 h2) (lt_irrefl _)⟩

lemma sortPairs_perm (l : List (String × PyVal)) : (sortPairs l).Perm l :=
  List.perm_insertionSort _ l

lemma sortPairs_sorted (l : List (String × PyVal)) :
    (sortPairs l).Sorted (fun a b => a.1 ≤ b.1) :=
  List.sorted_insertionSort _ l

lemma sorted_strict_of_nodup_keys {l : List (String × PyVal)}
    (hs : l.Sorted (fun a b => a.1 ≤ b.1)) (hnd : (l.map Prod.fst).Nodup) :
    l.Sorted (fun a b => a.1 < b.1) := by
  have hne : l.Pairwise (fun a b : String × PyVal => a.1 ≠ b.1) :=
    (List.pairwise_map).mp hnd
  exact (hs.and hne).imp (fun h => lt_of_le_of_ne h.1 h.2)

/-- Two keyword dicts that are equal as mappings sort to the same item list. -/
lemma sortPairs_eq_of_perm {kw1 kw2 : List (String × PyVal)} (h : kw1.Perm kw2)
    (hnd : (kw1.map Prod.fst).Nodup) : sortPairs kw1 = sortPairs kw2 := by
  have hnd1 : ((sortPairs kw1).map Prod.fst).Nodup :=
    (((sortPairs_perm kw1).map Prod.fst).nodup_iff).mpr hnd
  have hnd2 : ((sortPairs kw2).map Prod.fst).Nodup :=
    (((sortPairs_perm kw2).map Prod.fst).nodup_iff).mpr
      (((h.map Prod.fst).nodup_iff).mp hnd)
  exact List.eq_of_perm_of_sorted
    ((sortPairs_perm kw1).trans (h.trans (sortPairs_perm kw2).symm))
    (sorted_strict_of_nodup_keys (sortPairs_sorted kw1) hnd1)
    (sorted_strict_of_nodup_keys (sortPairs_sorted kw2) hnd2)

lemma lookup3_set3_self (l : List (String × PyVal × Nat)) (k : String)
    (ve : PyVal × Nat) : lookup3 (set3 l k ve) k = some ve := by
  induction l with
  | nil => simp [set3, lookup3]
  | cons q rest ih =>
      obtain ⟨qk, qv⟩ := q
      by_cases hk : qk = k
      · simp [set3, hk, lookup3]
      · simp [set3, hk, lookup3, ih]

lemma length_set3 (l : List (String × PyVal × Nat)) (k : String) (ve : PyVal × Nat) :
    (set3 l k ve).length ≤ l.length + 1 := by
  induction l with
  | nil => simp [set3]
  | cons q rest ih =>
      obtain ⟨qk, qv⟩ := q
      by_cases hk : qk = k
      · simp [set3, hk]
      · simp [set3, hk]; omega

lemma evictLoop_of_le {maxsize : Nat} {cache : List (String × PyVal × Nat)}
    (order : List String) (h : cache.length ≤ maxsize) :
    evictLoop maxsize cache order = (cache, order) := by
  cases order with
  | nil => rfl
  | cons oldest rest => simp [evictLoop, Nat.not_lt.mpr h]

/-- Get-after-set on `SimpleCache`, under capacity headroom and a fresh TTL. -/
lemma SimpleCache.get_set_self (sc : SimpleCache) (key : String) (v : PyVal)
    (tset tget : Nat) (hcap : sc.cache.length < sc.maxsize)
    (hfresh : tget < tset + sc.ttl) :
    ((sc.set key v tset).get key tget).1 = some v := by
  have hlen : (set3 sc.cache key (v, tset + sc.ttl)).length ≤ sc.maxsize :=
    le_trans (length_set3 _ _ _) hcap
  unfold SimpleCache.set
  dsimp only
  rw [evictLoop_of_le _ hlen]
  unfold SimpleCache.get
  dsimp only
  rw [lookup3_set3_self]
  simp [hfresh]

/-- C7: `_generate_cache_key` is invariant under keyword reordering (two
keyword maps equal as mappings give the byte-identical key string), and hence
a `CacheManager.get` with the same logical arguments in a different keyword
order retrieves the value a prior `set` stored, as long as the value was not
error-shaped, the cache had capacity headroom, and the TTL has not lapsed. -/
theorem cache_key_canonical :
    (∀ (m : String) (args : List PyVal) (kw1 kw2 : List (String × PyVal)),
       kw1.Perm kw2 → (kw1.map Prod.fst).Nodup →
       generate_cache_key m args kw1 = generate_cache_key m args kw2)
  ∧ (∀ (cm : CacheManager) (m : String) (args : List PyVal)
       (kw1 kw2 : List (String × PyVal)) (v : PyVal) (tset tget : Nat),
       kw1.Perm kw2 → (kw1.map Prod.fst).Nodup →
       isErrorDict v = false →
       cm.cache.cache.length < cm.cache.maxsize →
       tget < tset + cm.cache.ttl →
       ((cm.set m v args kw1 tset).get m args kw2 tget).1 = some v) := by
  have hkey : ∀ (m : String) (args : List PyVal) (kw1 kw2 : List (String × PyVal)),
      kw1.Perm kw2 → (kw1.map Prod.fst).Nodup →
      generate_cache_key m args kw1 = generate_cache_key m args kw2 := by
    intro m args kw1 kw2 hperm hnd
    unfold generate_cache_key kwargsItems
    rw [sortPairs_eq_of_perm hperm hnd]
  refine ⟨hkey, ?_⟩
  intro cm m args kw1 kw2 v tset tget hperm hnd herr hcap hfresh
  unfold CacheManager.set
  rw [if_neg (by simp [herr])]
  unfold CacheManager.get
  rw [← hkey m args kw1 kw2 hperm hnd]
  exact SimpleCache.get_set_self _ _ _ _ _ hcap hfresh

/-- Witness for `cache_key_canonical`: swapping two keyword arguments leaves
the key unchanged and the stored value retrievable. -/
theorem cache_key_canonical_witness :
    (generate_cache_key "search_petitions" [] [("offset", .int 0), ("limit", .int 25)] =
       generate_cache_key "search_petitions" [] [("limit", .int 25), ("offset", .int 0)])
  ∧ (((CacheManager.init 100 600).set "search_petitions" (.dict [("success", .bool true)])
        [] [("offset", .int 0), ("limit", .int 25)] 0).get "search_petitions" []
        [("limit", .int 25), ("offset", .int 0)] 5).1 =
      some (.dict [("success", .bool true)]) :=
  ⟨cache_key_canonical.1 "search_petitions" []
     [("offset", .int 0), ("limit", .int 25)] [("limit", .int 25), ("offset", .int 0)]
     (List.Perm.swap ("limit", PyVal.int 25) ("offset", PyVal.int 0) []) (by simp),
   cache_key_canonical.2 (CacheManager.init 100 600) "search_petitions" []
     [("offset", .int 0), ("limit", .int 25)] [("limit", .int 25), ("offset", .int 0)]
     (.dict [("success", .bool true)]) 0 5
     (List.Perm.swap ("limit", PyVal.int 25) ("offset", PyVal.int 0) []) (by simp) rfl
     (by simp [CacheManager.init]) (by simp [CacheManager.init])⟩

/-! ## Resilient request path (`api/fpd_client.py`) -/

def RETRY_ATTEMPTS : Nat := 3

/-- What one upstream attempt (one `client.get/post`, `raise_for_status`,
`.json()`) does: return a JSON body, raise `httpx.HTTPStatusError` carrying
the response status and text, raise `httpx.TimeoutException`, or raise some
other exception. -/
inductive AttemptOutcome where
  | success (body : PyVal)
  | httpStatusError (status : Int) (text : String)
  | timeout
  | otherError (msg : String)

/-- The exception held in `last_exception` after a failed attempt. -/
inductive LastExc where
  | httpStatus (status : Int) (text : String)
  | timeout
  | other (msg : String)

/-- The `# All retries failed` tail of `_execute_request`: 408 for a timeout,
the upstream status for an HTTP error, 500 otherwise. (`none` is unreachable
for `RETRY_ATTEMPTS ≥ 1`; Python would stringify `None` into the 500 message.) -/
def afterRetries (request_id : String) : Option LastExc → PyVal
  | some .timeout =>
      format_error_response "Request timeout - please try again" 408 (some request_id)
  | some (.httpStatus c txt) =>
      format_error_response ("API error: " ++ txt) c (some request_id)
  | some (.other m) =>
      format_error_response ("Request failed: " ++ m) 500 (some request_id)
  | none => format_error_response "Request failed: None" 500 (some request_id)

/-- The `for attempt in range(RETRY_ATTEMPTS)` loop of `_execute_request`:
a 4xx HTTP error returns immediately; 5xx, timeouts and (off the final
attempt) other exceptions set `last_exception` and retry; another exception on
the final attempt returns a 500. `remaining` counts attempts left (`1` on the
final attempt), `idx` is the attempt number; the result is paired with the
number of attempts performed. Backoff sleeps do not change the result. -/
def runAttempts (request_id : String) (upstream : Nat → AttemptOutcome) :
    Nat → Nat → Option LastExc → PyVal × Nat
  | 0, _, last => (afterRetries request_id last, 0)
  | remaining + 1, idx, _ =>
      match upstream idx with
      | .success body => (body, 1)
      | .httpStatusError c txt =>
          if c < 500 then
            (format_error_response ("API error: " ++ txt) c (some request_id), 1)
          else
            let r := runAttempts request_id upstream remaining (idx + 1)
                       (some (.httpStatus c txt))
            (r.1, r.2 + 1)
      | .timeout =>
          let r := runAttempts request_id upstream remaining (idx + 1) (some .timeout)
          (r.1, r.2 + 1)
      | .otherError m =>
          if remaining = 0 then
            (format_error_response ("Request failed: " ++ m) 500 (some request_id), 1)
          else
            let r := runAttempts request_id upstream remaining (idx + 1) (some (.other m))
            (r.1, r.2 + 1)

/-- `_execute_request` for an upstream whose attempt `i` behaves as
`upstream i`: the returned response dict and the number of attempts made. -/
def execute_request (request_id : String) (upstream : Nat → AttemptOutcome) :
    PyVal × Nat :=
  runAttempts request_id upstream RETRY_ATTEMPTS 0 none

lemma runAttempts_succ_eq (rid : String) (up : Nat → AttemptOutcome) (n idx : Nat)
    (last : Option LastExc) :
    runAttempts rid up (n + 1) idx last =
      match up idx with
      | .success body => (body, 1)
      | .httpStatusError c txt =>
          if c < 500 then
            (format_error_response ("API error: " ++ txt) c (some rid), 1)
          else
            ((runAttempts rid up n (idx + 1) (some (.httpStatus c txt))).1,
             (runAttempts rid up n (idx + 1) (some (.httpStatus c txt))).2 + 1)
      | .timeout =>
          ((runAttempts rid up n (idx + 1) (some .timeout)).1,
           (runAttempts rid up n (idx + 1) (some .timeout)).2 + 1)
      | .otherError m =>
          if n = 0 then
            (format_error_response ("Request failed: " ++ m) 500 (some rid), 1)
          else
            ((runAttempts rid up n (idx + 1) (some (.other m))).1,
             (runAttempts rid up n (idx + 1) (some (.other m))).2 + 1) := rfl

/-- C4: the retry policy of `_make_request._execute_request` with
`RETRY_ATTEMPTS = 3`. A sub-500 HTTP error returns after exactly one attempt
with the upstream status passed through; all-timeout upstreams consume exactly
3 attempts and yield 408; all-5xx upstreams consume 3 attempts and yield the
final attempt's upstream status; all-other-exception upstreams consume 3
attempts and yield 500. -/
theorem retry_policy (rid : String) :
    (∀ (upstream : Nat → AttemptOutcome) (c : Int) (txt : String),
       upstream 0 = .httpStatusError c txt → c < 500 →
       execute_request rid upstream =
         (format_error_response ("API error: " ++ txt) c (some rid), 1))
  ∧ (∀ upstream : Nat → AttemptOutcome,
       (∀ i, i < RETRY_ATTEMPTS → upstream i = .timeout) →
       execute_request rid upstream =
         (format_error_response "Request timeout - please try again" 408 (some rid),
          RETRY_ATTEMPTS))
  ∧ (∀ (upstream : Nat → AttemptOutcome) (c : Nat → Int) (txt : Nat → String),
       (∀ i, i < RETRY_ATTEMPTS → upstream i = .httpStatusError (c i) (txt i)) →
       (∀ i, i < RETRY_ATTEMPTS → 500 ≤ c i) →
       execute_request rid upstream =
         (format_error_response ("API error: " ++ txt 2) (c 2) (some rid),
          RETRY_ATTEMPTS))
  ∧ (∀ (upstream : Nat → AttemptOutcome) (m : String),
       (∀ i, i < RETRY_ATTEMPTS → upstream i = .otherError m) →
       execute_request rid upstream =
         (format_error_response ("Request failed: " ++ m) 500 (some rid),
          RETRY_ATTEMPTS)) := by
  refine ⟨?_, ?_, ?_, ?_⟩
  · intro upstream c txt h0 hc
    unfold execute_request RETRY_ATTEMPTS
    rw [show (3 : Nat) = 2 + 1 from rfl, runAttempts_succ_eq, h0]
    simp [hc]
  · intro upstream h
    have h0 := h 0 (by decide)
    have h1 := h 1 (by decide)
    have h2 := h 2 (by decide)
    unfold execute_request RETRY_ATTEMPTS
    rw [show (3 : Nat) = 2 + 1 from rfl, runAttempts_succ_eq, h0]
    rw [show (2 : Nat) = 1 + 1 from rfl, runAttempts_succ_eq,
        show (0 : Nat) + 1 = 1 from rfl, h1]
    rw [show (1 : Nat) = 0 + 1 from rfl, runAttempts_succ_eq,
        show (1 : Nat) + 1 = 2 from rfl, h2]
    rfl
  · intro upstream c txt h hge
    have h0 := h 0 (by decide)
    have h1 := h 1 (by decide)
    have h2 := h 2 (by decide)
    have hn0 : ¬ (c 0 < 500) := by have := hge 0 (by decide); omega
    have hn1 : ¬ (c 1 < 500) := by have := hge 1 (by decide); omega
    have hn2 : ¬ (c 2 < 500) := by have := hge 2 (by decide); omega
    unfold execute_request RETRY_ATTEMPTS
    rw [show (3 : Nat) = 2 + 1 from rfl, runAttempts_succ_eq, h0]
    simp only [if_neg hn0]
    rw [show (2 : Nat) = 1 + 1 from rfl, runAttempts_succ_eq,
        show (0 : Nat) + 1 = 1 from rfl, h1]
    simp only [if_neg hn1]
    rw [show (1 : Nat) = 0 + 1 from rfl, runAttempts_succ_eq,
        show (1 : Nat) + 1 = 2 from rfl, h2]
    simp only [if_neg hn2]
    rfl
  · intro upstream m h
    have h0 := h 0 (by decide)
    have h1 := h 1 (by decide)
    have h2 := h 2 (by decide)
    unfold execute_request RETRY_ATTEMPTS
    rw [show (3 : Nat) = 2 + 1 from rfl, runAttempts_succ_eq, h0]
    simp only [if_neg (by omega : ¬ (2 : Nat) = 0)]
    rw [show (2 : Nat) = 1 + 1 from rfl, runAttempts_succ_eq,
        show (0 : Nat) + 1 = 1 from rfl, h1]
    simp only [if_neg (by omega : ¬ (1 : Nat) = 0)]
    rw [show (1 : Nat) = 0 + 1 from rfl, runAttempts_succ_eq,
        show (1 : Nat) + 1 = 2 from rfl, h2]
    rfl

/-- Witness for `retry_policy`: a constant-404 upstream is tried once; a
constant-timeout upstream is tried 3 times and maps to 408; a constant-503
upstream is tried 3 times and passes 503 through; a constant-crash upstream
is tried 3 times and maps to 500. -/
theorem retry_policy_witness :
    (execute_request "req1" (fun _ => .httpStatusError 404 "Not Found") =
       (format_error_response ("API error: " ++ "Not Found") 404 (some "req1"), 1))
  ∧ (execute_request "req1" (fun _ => .timeout) =
       (format_error_response "Request timeout - please try again" 408 (some "req1"),
        RETRY_ATTEMPTS))
  ∧ (execute_request "req1" (fun _ => .httpStatusError 503 "Service Unavailable") =
       (format_error_response ("API error: " ++ "Service Unavailable") 503 (some "req1"),
        RETRY_ATTEMPTS))
  ∧ (execute_request "req1" (fun _ => .otherError "boom") =
       (format_error_response ("Request failed: " ++ "boom") 500 (some "req1"),
        RETRY_ATTEMPTS)) :=
  ⟨(retry_policy "req1").1 (fun _ => .httpStatusError 404 "Not Found") 404 "Not Found"
     rfl (by decide),
   (retry_policy "req1").2.1 (fun _ => .timeout) (fun i _ => rfl),
   (retry_policy "req1").2.2.1 (fun _ => .httpStatusError 503 "Service Unavailable")
     (fun _ => 503) (fun _ => "Service Unavailable") (fun i _ => rfl)
     (fun i _ => show (500 : Int) ≤ 503 by decide),
   (retry_policy "req1").2.2.2 (fun _ => .otherError "boom") "boom" (fun i _ => rfl)⟩

/-! ### `_make_request`: circuit breaker wrapping and cache fallback -/

/-- The `FPDClient` state that `_make_request` touches: the USPTO breaker
(`failure_threshold=5`, `recovery_timeout=60`) and the fallback cache
(capacity `DEFAULT_CACHE_SIZE = 100`, TTL `DEFAULT_CACHE_TTL_SECONDS = 600`). -/
structure FPDClientState where
  uspto_circuit_breaker : CircuitBreaker
  cache_manager : CacheManager

def FPDClientState.init : FPDClientState :=
  { uspto_circuit_breaker := CircuitBreaker.init 5 60,
    cache_manager := CacheManager.init 100 600 }

/-- `FPDClient._make_request(endpoint, method, **kwargs)` from the
`uspto_circuit_breaker.call(_execute_request)` line down. `_execute_request`
catches every exception its attempts raise and returns an error dict instead
of raising, so an admitted call always reaches `_on_success`; the only
exception the `try` can see is the breaker's own
`"Circuit breaker 'USPTO_API' is OPEN - service unavailable"`, whose text
contains both `"Circuit breaker"` and `"OPEN"`, so rejection always takes the
cache-fallback branch. A truthy non-dict JSON body would raise
`AttributeError` at `result.get("error")` and fall into the generic 503
return (message abbreviated here); no claim exercises that shape. -/
def make_request (st : FPDClientState) (endpoint method : String)
    (kwargs : List (String × PyVal)) (upstream : Nat → AttemptOutcome)
    (request_id : String) (now : Nat) : PyVal × FPDClientState :=
  let cache_key := method ++ "_" ++ endpoint
  match st.uspto_circuit_breaker.preCheck now with
  | none =>
      let g := st.cache_manager.get cache_key [] kwargs now
      let st1 : FPDClientState := { st with cache_manager := g.2 }
      match g.1 with
      | some cached_result =>
          if cached_result.truthy then
            (((((cached_result.setItem "_cached" (.bool true)).setItem
                "_circuit_open" (.bool true)).setItem "_warning"
                (.str "Serving cached data - USPTO API temporarily unavailable")).setItem
                "_cache_age_seconds" (.str "unknown")).setItem "request_id"
                (.str request_id),
             st1)
          else
            (format_error_response
               "Service temporarily unavailable: Circuit breaker 'USPTO_API' is OPEN - service unavailable"
               503 (some request_id), st1)
      | none =>
          (format_error_response
             "Service temporarily unavailable: Circuit breaker 'USPTO_API' is OPEN - service unavailable"
             503 (some request_id), st1)
  | some cb1 =>
      let result := (execute_request request_id upstream).1
      let st1 : FPDClientState := { st with uspto_circuit_breaker := cb1.on_success }
      match result with
      | .dict _ =>
          if result.truthy && !(isErrorDict result) then
            (result, { st1 with cache_manager :=
                st1.cache_manager.set cache_key result [] kwargs now })
          else (result, st1)
      | _ =>
          if result.truthy then
            (format_error_response "Service temporarily unavailable: AttributeError"
               503 (some request_id), st1)
          else (result, st1)

/-! ### C2: five upstream failures do not open the breaker (code bug) -/

/-- `n` consecutive `_make_request` calls whose every attempt times out,
issued at instants `0, 1, ..., n-1` against a fresh client. -/
def repeatTimeoutRequests : Nat → FPDClientState
  | 0 => FPDClientState.init
  | n + 1 => (make_request (repeatTimeoutRequests n) "decisions/search" "GET" []
      (fun _ => .timeout) "reqN" n).2

/-- C2 (evidence of the code bug): after 5 consecutive `_make_request`
invocations in which every retry attempt times out, the USPTO breaker is
still CLOSED with `failure_count = 0` — `_execute_request` converts failures
into returned error dicts, so `CircuitBreaker.call` records a success and the
breaker can never trip from upstream failures. The 6th request for a
never-cached endpoint consequently still invokes the upstream and returns the
408 timeout error, not the claimed 503 circuit-open error. -/
theorem make_request_breaker_never_opens :
    ((repeatTimeoutRequests 5).uspto_circuit_breaker.state = CircuitState.CLOSED ∧
     (repeatTimeoutRequests 5).uspto_circuit_breaker.failure_count = 0 ∧
     (repeatTimeoutRequests 5).uspto_circuit_breaker.state ≠ CircuitState.OPEN)
  ∧ (make_request (repeatTimeoutRequests 5) "decisions/uncached" "GET" []
       (fun _ => .timeout) "req6" 5).1 =
      format_error_response "Request timeout - please try again" 408 (some "req6")
  ∧ ((make_request (repeatTimeoutRequests 5) "decisions/uncached" "GET" []
       (fun _ => .timeout) "req6" 5).1).get1 "status_code" = some (.int 408)
  ∧ ((make_request (repeatTimeoutRequests 5) "decisions/uncached" "GET" []
       (fun _ => .timeout) "req6" 5).1).get1 "status_code" ≠ some (.int 503) := by
  refine ⟨⟨rfl, rfl, by decide⟩, rfl, rfl, ?_⟩
  intro h
  have : (Int.ofNat 408) = (Int.ofNat 503) := by
    have h2 := h
    rw [show ((make_request (repeatTimeoutRequests 5) "decisions/uncached" "GET" []
       (fun _ => .timeout) "req6" 5).1).get1 "status_code" = some (.int 408) from rfl] at h2
    cases h2
  simp at this

/-! ### C3: cache fallback while the circuit is OPEN -/

lemma assocFind_assocSet_ne (k k' : String) (v : PyVal) (h : k ≠ k') :
    ∀ l : List (String × PyVal), assocFind (assocSet l k v) k' = assocFind l k' := by
  intro l
  induction l with
  | nil => simp [assocSet, assocFind, h]
  | cons q rest ih =>
      obtain ⟨qk, qv⟩ := q
      by_cases hk : qk = k
      · subst hk
        simp only [assocSet, if_pos rfl]
        simp [assocFind, h]
      · simp only [assocSet, if_neg hk]
        by_cases hk' : qk = k'
        · simp [assocFind, hk']
        · simp [assocFind, hk', ih]

lemma get1_setItem_ne (d : PyVal) (k : String) (v : PyVal) (k' : String)
    (h : k ≠ k') : (d.setItem k v).get1 k' = d.get1 k' := by
  cases d <;> simp [PyVal.setItem, PyVal.get1]
  exact assocFind_assocSet_ne k k' v h _

/-- C3 (amended): while the USPTO breaker reports OPEN and the recovery
window has not elapsed, `_make_request` never invokes the upstream (the
result is the same for any two upstreams); if a truthy value is cached under
`f"{method}_{endpoint}"` with the same kwargs and its TTL has not lapsed, the
call returns that value annotated `_cached=True`, `_circuit_open=True`, a
`_warning`, `_cache_age_seconds="unknown"` and the request id — with its
`error` entry unchanged, so a non-error cached value stays non-error; if
nothing usable is cached, it returns the structured 503 error with the
request id. -/
theorem circuit_open_cache_fallback (st : FPDClientState) (method endpoint : String)
    (kwargs : List (String × PyVal)) (upstream1 upstream2 : Nat → AttemptOutcome)
    (rid : String) (now lt : Nat)
    (hst : st.uspto_circuit_breaker.state = .OPEN)
    (hlt : st.uspto_circuit_breaker.last_failure_time = some lt)
    (hrec : ¬ lt + st.uspto_circuit_breaker.recovery_timeout < now) :
    (∀ (v : PyVal) (cm' : CacheManager),
       st.cache_manager.get (method ++ "_" ++ endpoint) [] kwargs now = (some v, cm') →
       v.truthy = true →
       (make_request st endpoint method kwargs upstream1 rid now).1 =
         ((((v.setItem "_cached" (.bool true)).setItem "_circuit_open"
            (.bool true)).setItem "_warning"
            (.str "Serving cached data - USPTO API temporarily unavailable")).setItem
            "_cache_age_seconds" (.str "unknown")).setItem "request_id" (.str rid) ∧
       ((make_request st endpoint method kwargs upstream1 rid now).1).get1 "error" =
         v.get1 "error")
  ∧ (∀ cm' : CacheManager,
       st.cache_manager.get (method ++ "_" ++ endpoint) [] kwargs now = (none, cm') →
       (make_request st endpoint method kwargs upstream1 rid now).1 =
         format_error_response
           "Service temporarily unavailable: Circuit breaker 'USPTO_API' is OPEN - service unavailable"
           503 (some rid))
  ∧ (make_request st endpoint method kwargs upstream1 rid now).1 =
      (make_request st endpoint method kwargs upstream2 rid now).1 := by
  have hres : st.uspto_circuit_breaker.should_attempt_reset now = false := by
    unfold CircuitBreaker.should_attempt_reset
    rw [hlt]
    simpa using hrec
  have hpre : st.uspto_circuit_breaker.preCheck now = none :=
    CircuitBreaker.preCheck_open_no_reset _ now hst hres
  refine ⟨?_, ?_, ?_⟩
  · intro v cm' hget htruthy
    unfold make_request
    dsimp only
    rw [hpre, hget]
    dsimp only
    rw [if_pos htruthy]
    refine ⟨rfl, ?_⟩
    rw [get1_setItem_ne _ _ _ _ (by decide), get1_setItem_ne _ _ _ _ (by decide),
        get1_setItem_ne _ _ _ _ (by decide), get1_setItem_ne _ _ _ _ (by decide),
        get1_setItem_ne _ _ _ _ (by decide)]
  · intro cm' hget
    unfold make_request
    dsimp only
    rw [hpre, hget]
  · unfold make_request
    dsimp only
    rw [hpre]

/-- A concrete client state with the breaker OPEN (window not yet elapsed at
`now = 120`) and a non-error response cached for `GET decisions/abc`. -/
def c3_cached_value : PyVal := .dict [("success", .bool true), ("results", .list [])]

def c3_state : FPDClientState :=
  { uspto_circuit_breaker :=
      { failure_threshold := 5, recovery_timeout := 60, failure_count := 5,
        success_count := 0, last_failure_time := some 100, state := .OPEN },
    cache_manager :=
      (CacheManager.init 100 600).set "GET_decisions/abc" c3_cached_value [] [] 100 }

def c3_result : PyVal :=
  (make_request c3_state "decisions/abc" "GET" [] (fun _ => .timeout) "req7" 120).1

/-- The same client state with nothing cached. -/
def c3_state_nocache : FPDClientState :=
  { c3_state with cache_manager := CacheManager.init 100 600 }

/-- C3 counterexample: with the breaker OPEN and a fresh cached value, the
served response carries no `stale` key and no `circuit_open` key — the claim
names the flags `{stale: true, circuit_open: true}`, but the code writes
`_cached` and `_circuit_open`. -/
theorem circuit_open_stale_flag_counterexample :
    c3_state.uspto_circuit_breaker.state = CircuitState.OPEN
  ∧ (c3_state.cache_manager.get "GET_decisions/abc" [] [] 120).1 = some c3_cached_value
  ∧ c3_result.get1 "stale" = none
  ∧ c3_result.get1 "circuit_open" = none
  ∧ c3_result.get1 "_cached" = some (.bool true)
  ∧ c3_result.get1 "_circuit_open" = some (.bool true)
  ∧ c3_result.get1 "request_id" = some (.str "req7") :=
  ⟨rfl, rfl, rfl, rfl, rfl, rfl, rfl⟩

/-- Witness for `circuit_open_cache_fallback` at the concrete OPEN states. -/
theorem circuit_open_cache_fallback_witness :
    (c3_result =
       ((((c3_cached_value.setItem "_cached" (.bool true)).setItem "_circuit_open"
          (.bool true)).setItem "_warning"
          (.str "Serving cached data - USPTO API temporarily unavailable")).setItem
          "_cache_age_seconds" (.str "unknown")).setItem "request_id" (.str "req7") ∧
     c3_result.get1 "error" = c3_cached_value.get1 "error")
  ∧ (make_request c3_state_nocache "decisions/abc" "GET" [] (fun _ => .timeout)
       "req8" 120).1 =
      format_error_response
        "Service temporarily unavailable: Circuit breaker 'USPTO_API' is OPEN - service unavailable"
        503 (some "req8") :=
  ⟨(circuit_open_cache_fallback c3_state "GET" "decisions/abc" []
      (fun _ => .timeout) (fun _ => .timeout) "req7" 120 100 rfl rfl (by decide)).1
      c3_cached_value (c3_state.cache_manager.get "GET_decisions/abc" [] [] 120).2
      rfl rfl,
   (circuit_open_cache_fallback c3_state_nocache "GET" "decisions/abc" []
      (fun _ => .timeout) (fun _ => .timeout) "req8" 120 100 rfl rfl (by decide)).2.1
      (c3_state_nocache.cache_manager.get "GET_decisions/abc" [] [] 120).2 rfl⟩

/-! ## Hybrid PDF text extraction (`api/fpd_client.py`) -/

/-- Python `c.isalnum() or c.isspace()` and the basic-punctuation set
`'.,;:!?-()[]{}'` of `is_good_extraction`. The Lean character classes agree
with Python's on ASCII; both sides of every statement below use the same
classes, so the claims are insensitive to the non-ASCII fringe. -/
def pyIsSpace (c : Char) : Bool := c.isWhitespace

def basicPunct : List Char :=
  ['.', ',', ';', ':', '!', '?', '-', '(', ')', '[', ']', '\x7b', '\x7d']

def isGarbledChar (c : Char) : Bool :=
  !(c.isAlphanum || pyIsSpace c || basicPunct.contains c)

/-- `sum(1 for c in text if not (...))`. -/
def garbledCount (text : String) : Nat :=
  (text.toList.filter isGarbledChar).length

/-- `text.split()`: maximal runs of non-whitespace characters. -/
def pySplit : List Char → List Char → List (List Char)
  | [], acc => if acc.isEmpty then [] else [acc.reverse]
  | c :: rest, acc =>
      if pyIsSpace c then
        if acc.isEmpty then pySplit rest [] else acc.reverse :: pySplit rest []
      else pySplit rest (c :: acc)

def pyWords (text : String) : List (List Char) := pySplit text.toList []

/-- `FPDClient.is_good_extraction`. The ratio test `garbled/len > 0.3` is
stated exactly over the rationals as `10 * garbled > 3 * len`; for every
string short enough to exist in memory the Python float comparison agrees
with the rational one (`len(text)` and the count are exact in double
precision and the quotient is correctly rounded, so no value can land between
`0.3` and the nearest representable double). -/
def is_good_extraction (text : String) : Bool :=
  if text.length < 100 then false
  else if 3 * text.length < 10 * garbledCount text then false
  else if (pyWords text).length < 20 then false
  else true

/-- The outcome of `extract_document_content_hybrid` that the claim observes:
which extractor produced the text, the reported cost (in tenths of a cent, to
stay in integers: `processing_cost_usd = cost_milli_cents / 10000`), and
whether the Mistral OCR path was invoked at all. -/
structure HybridResult where
  extracted_content : String
  extraction_method : String
  cost_milli_cents : Nat
  ocr_invoked : Bool
deriving Repr

/-- The `auto_optimize = True` branch of
`FPDClient.extract_document_content_hybrid` (lines 794-835): try the free
PyPDF2 extraction, keep it when `is_good_extraction` passes (zero cost, no
OCR call), otherwise invoke `extract_with_mistral_ocr` and report its text
and cost. `mistral` packages what that call would return. -/
def extract_hybrid_auto (pypdf_text : String) (mistral : String × Nat) : HybridResult :=
  if is_good_extraction pypdf_text then
    { extracted_content := pypdf_text
      extraction_method := "PyPDF2"
      cost_milli_cents := 0
      ocr_invoked := false }
  else
    { extracted_content := mistral.1
      extraction_method := "Mistral OCR (mistral-ocr-latest)"
      cost_milli_cents := mistral.2
      ocr_invoked := true }

/-- C5: `is_good_extraction text` is false exactly when the text is shorter
than 100 characters, or the garbled-character ratio exceeds 3/10, or the
whitespace-split word count is below 20; under `auto_optimize` the hybrid
extractor returns the free PyPDF2 result (zero cost, OCR never invoked) iff
the heuristic passes, and otherwise invokes the paid OCR path and reports the
OCR method. -/
theorem extraction_quality_hybrid (text : String) :
    (is_good_extraction text = false ↔
       (text.length < 100 ∨ 3 * text.length < 10 * garbledCount text ∨
        (pyWords text).length < 20))
  ∧ (∀ mistral : String × Nat, is_good_extraction text = true →
       extract_hybrid_auto text mistral =
         { extracted_content := text, extraction_method := "PyPDF2",
           cost_milli_cents := 0, ocr_invoked := false })
  ∧ (∀ mistral : String × Nat, is_good_extraction text = false →
       (extract_hybrid_auto text mistral).ocr_invoked = true ∧
       (extract_hybrid_auto text mistral).extraction_method =
         "Mistral OCR (mistral-ocr-latest)" ∧
       (extract_hybrid_auto text mistral).cost_milli_cents = mistral.2) := by
  refine ⟨?_, ?_, ?_⟩
  · unfold is_good_extraction
    split_ifs with h1 h2 h3
    · simp [h1]
    · simp [h1, h2]
    · simp [h1, h2, h3]
    · simp [h1, h2, h3]
  · intro mistral hgood
    unfold extract_hybrid_auto
    rw [if_pos hgood]
  · intro mistral hbad
    unfold extract_hybrid_auto
    rw [if_neg (by simp [hbad])]
    exact ⟨rfl, rfl, rfl⟩

/-- A 125-character, 25-word, garble-free sample (each word `"word "`). -/
def goodText : String := String.join (List.replicate 25 "word ")

set_option maxRecDepth 16384 in
/-- Witness for `extraction_quality_hybrid`: the clean long text passes the
heuristic and is served by PyPDF2 at zero cost without OCR; a short garbled
string fails it and routes to the OCR path. -/
theorem extraction_quality_hybrid_witness :
    (is_good_extraction goodText = true ∧
     extract_hybrid_auto goodText ("ocr text", 50) =
       { extracted_content := goodText, extraction_method := "PyPDF2",
         cost_milli_cents := 0, ocr_invoked := false })
  ∧ (is_good_extraction "short" = false ∧
     (extract_hybrid_auto "short" ("ocr text", 50)).ocr_invoked = true ∧
     (extract_hybrid_auto "short" ("ocr text", 50)).extraction_method =
       "Mistral OCR (mistral-ocr-latest)" ∧
     (extract_hybrid_auto "short" ("ocr text", 50)).cost_milli_cents = 50)
  ∧ (is_good_extraction "" = false ↔
       (("" : String).length < 100 ∨ 3 * ("" : String).length < 10 * garbledCount "" ∨
        (pyWords "").length < 20)) :=
  ⟨⟨by decide, (extraction_quality_hybrid goodText).2.1 ("ocr text", 50) (by decide)⟩,
   ⟨by decide, (extraction_quality_hybrid "short").2.2 ("ocr text", 50) (by decide)⟩,
   (extraction_quality_hybrid "").1⟩

/-! ## Download filename generation (`proxy/server.py`) -/

/-- The character class kept by `re.sub(r'[^A-Z0-9_-]', '', clean)`. -/
def allowedFilenameChar (c : Char) : Bool :=
  ('A' ≤ c && c ≤ 'Z') || ('0' ≤ c && c ≤ '9') || c = '_' || c = '-'

/-- `sanitize_description`: uppercase, spaces to underscores, strip everything
outside `[A-Z0-9_-]`, truncate. `str.upper()` is modelled per character (exact
on ASCII; non-ASCII letters are removed by the filter either way) and
`.replace(' ', '_')` is the single-character substitution it performs. -/
def sanitize_description (description : String) (max_length : Nat) : String :=
  if description.isEmpty then "DOCUMENT"
  else
    let clean := description.toList.map Char.toUpper
    let clean := clean.map (fun c => if c = ' ' then '_' else c)
    let clean := clean.filter allowedFilenameChar
    String.mk (clean.take max_length)

/-- `s and s.strip()`: a string that is truthy and not whitespace-only. -/
def hasNonWS (s : String) : Bool := s.toList.any (fun c => !c.isWhitespace)

/-- `petition_mail_date.split('T')[0] if 'T' in petition_mail_date else
petition_mail_date`. -/
def datePart (d : String) : String :=
  if d.toList.contains 'T' then String.mk (d.toList.takeWhile (fun c => c ≠ 'T'))
  else d

/-- `"_".join(components)`. -/
def joinUnderscore : List String → String
  | [] => ""
  | [x] => x
  | x :: y :: xs => x ++ "_" ++ joinUnderscore (y :: xs)

/-- `generate_enhanced_filename`: optional `PET-{date}`, mandatory
`APP-{app or UNKNOWN}`, optional `PAT-{patent}`, sanitized description
(falling back to the document code, then `"DOCUMENT"`), joined with
underscores, plus `.pdf`. -/
def generate_enhanced_filename (petition_mail_date : Option String)
    (app_number : String) (patent_number : Option String)
    (document_description : String) (document_code : String)
    (max_desc_length : Nat) : String :=
  let components : List String :=
    (match petition_mail_date with
     | some d => if hasNonWS d then ["PET-" ++ datePart d] else []
     | none => []) ++
    ["APP-" ++ (if app_number.isEmpty then "UNKNOWN" else app_number)] ++
    (match patent_number with
     | some p => if hasNonWS p then ["PAT-" ++ p] else []
     | none => []) ++
    [sanitize_description
      (if document_description.isEmpty then
        (if document_code.isEmpty then "DOCUMENT" else document_code)
       else document_description) max_desc_length]
  joinUnderscore components ++ ".pdf"

/-- The filename contract of the (amended) spec, written out as string
concatenation: `[PET-{date}_]APP-{app_or_UNKNOWN}[_PAT-{patent}]_{DESC}.pdf`,
with the `PET-`/`PAT-` components present exactly when the corresponding
input contains a non-whitespace character. -/
def filenameSpec (pmd : Option String) (app : String) (pat : Option String)
    (desc code : String) : String :=
  (match pmd with
   | some d => if hasNonWS d then "PET-" ++ datePart d ++ "_" else ""
   | none => "") ++
  ("APP-" ++ (if app.isEmpty then "UNKNOWN" else app)) ++
  (match pat with
   | some p => if hasNonWS p then "_" ++ "PAT-" ++ p else ""
   | none => "") ++
  "_" ++
  sanitize_description
    (if desc.isEmpty then (if code.isEmpty then "DOCUMENT" else code) else desc) 40 ++
  ".pdf"

lemma string_append_assoc (a b c : String) : a ++ b ++ c = a ++ (b ++ c) := by
  apply String.ext
  simp

lemma underscore_pat_merge (x : String) : "_" ++ ("PAT-" ++ x) = "_PAT-" ++ x := by
  rw [← string_append_assoc]
  rfl

/-- C8 counterexample input: a whitespace-only petition date is non-empty,
yet the generated filename carries no `PET-` component (its first four
characters are `APP-`, not `PET-`). -/
theorem filename_pet_iff_counterexample :
    (" " : String) ≠ ""
  ∧ generate_enhanced_filename (some " ") "12345678" none "Decision" "PET.DEC" 40 =
      "APP-12345678_DECISION.pdf"
  ∧ (generate_enhanced_filename (some " ") "12345678" none "Decision"
      "PET.DEC" 40).toList.take 4 ≠ "PET-".toList :=
  ⟨by decide, by decide, by decide⟩

/-- C8 (amended): the generated filename equals the contract
`[PET-{date}_]APP-{app_or_UNKNOWN}[_PAT-{patent}]_{SANITIZED_DESC}.pdf`
(the function is a pure function of its inputs, hence deterministic), where
the `PET-`/`PAT-` components appear exactly when the date / patent number
contains a non-whitespace character, and the description component only
contains characters in `[A-Z0-9_-]` and is at most 40 characters long. -/
theorem filename_contract :
    (∀ (pmd : Option String) (app : String) (pat : Option String) (desc code : String),
       generate_enhanced_filename pmd app pat desc code 40 =
         filenameSpec pmd app pat desc code)
  ∧ (∀ s : String, ∀ c ∈ (sanitize_description s 40).toList,
       allowedFilenameChar c = true)
  ∧ (∀ s : String, (sanitize_description s 40).length ≤ 40) := by
  refine ⟨?_, ?_, ?_⟩
  · intro pmd app pat desc code
    unfold generate_enhanced_filename filenameSpec
    cases pmd with
    | none =>
        cases pat with
        | none => simp [joinUnderscore, string_append_assoc]
        | some p =>
            by_cases hp : hasNonWS p <;>
              simp [hp, joinUnderscore, string_append_assoc, underscore_pat_merge]
    | some d =>
        cases pat with
        | none =>
            by_cases hd : hasNonWS d <;>
              simp [hd, joinUnderscore, string_append_assoc]
        | some p =>
            by_cases hd : hasNonWS d <;> by_cases hp : hasNonWS p <;>
              simp [hd, hp, joinUnderscore, string_append_assoc, underscore_pat_merge]
  · intro s c hc
    unfold sanitize_description at hc
    by_cases hs : s.isEmpty
    · rw [if_pos hs] at hc
      have hall : ∀ x ∈ ("DOCUMENT" : String).toList, allowedFilenameChar x = true := by
        decide
      exact hall c hc
    · rw [if_neg hs] at hc
      dsimp only at hc
      have hc2 : c ∈ (((s.toList.map Char.toUpper).map
          (fun c => if c = ' ' then '_' else c)).filter allowedFilenameChar).take 40 := by
        simpa [String.toList] using hc
      exact (List.mem_filter.mp (List.mem_of_mem_take hc2)).2
  · intro s
    unfold sanitize_description
    by_cases hs : s.isEmpty
    · rw [if_pos hs]; decide
    · rw [if_neg hs]
      dsimp only
      simp [String.length]

set_option maxRecDepth 16384 in
/-- Witness for `filename_contract` at fully populated concrete inputs. -/
theorem filename_contract_witness :
    generate_enhanced_filename (some "2023-05-01T00:00:00") "17123456"
      (some "11222333") "Petition Decision - Granted!" "PET.OP" 40 =
      filenameSpec (some "2023-05-01T00:00:00") "17123456" (some "11222333")
        "Petition Decision - Granted!" "PET.OP"
  ∧ generate_enhanced_filename (some "2023-05-01T00:00:00") "17123456"
      (some "11222333") "Petition Decision - Granted!" "PET.OP" 40 =
      "PET-2023-05-01_APP-17123456_PAT-11222333_PETITION_DECISION_-_GRANTED.pdf"
  ∧ allowedFilenameChar 'P' = true
  ∧ (sanitize_description "Petition Decision - Granted!" 40).length ≤ 40 :=
  ⟨filename_contract.1 (some "2023-05-01T00:00:00") "17123456" (some "11222333")
      "Petition Decision - Granted!" "PET.OP",
   by decide,
   filename_contract.2.1 "Petition Decision - Granted!" 'P' (by decide),
   filename_contract.2.2 "Petition Decision - Granted!"⟩

/-! ## Rate-limited download endpoint (`proxy/server.py`) -/

/-- Modelled from the spec: `RateLimiter` — the module
`src/fpd_mcp/proxy/rate_limiter.py` is not in the source tree (only its
caller `server.py` is). Spec §4.1: a per-client-key sequence of request
instants; `is_allowed` purges instants older than `window_seconds`, allows
iff the remaining count is below `max_requests` (policy 5 per 10 seconds),
and appends the current instant on an allowed check; `get_reset_time` is
derived from the oldest in-window instant (oldest + window). -/
structure RateLimiter where
  max_requests : Nat
  window_seconds : Nat
  requests : String → List Nat

def RateLimiter.init (max_requests window_seconds : Nat) : RateLimiter :=
  { max_requests := max_requests, window_seconds := window_seconds,
    requests := fun _ => [] }

/-- Keep instants still inside the trailing window (`now - t < window`). -/
def purgeOld (window now : Nat) (ts : List Nat) : List Nat :=
  ts.filter (fun t => now < t + window)

def RateLimiter.is_allowed (rl : RateLimiter) (key : String) (now : Nat) :
    Bool × RateLimiter :=
  let ts := purgeOld rl.window_seconds now (rl.requests key)
  if ts.length < rl.max_requests then
    (true, { rl with requests := fun k => if k = key then ts ++ [now] else rl.requests k })
  else
    (false, { rl with requests := fun k => if k = key then ts else rl.requests k })

def RateLimiter.get_reset_time (rl : RateLimiter) (key : String) (now : Nat) : Nat :=
  match purgeOld rl.window_seconds now (rl.requests key) with
  | [] => now
  | oldest :: _ => oldest + rl.window_seconds

/-- The shared limiter instance for the proxy: 5 downloads per 10 seconds. -/
def rate_limiter : RateLimiter := RateLimiter.init 5 10

/-- An HTTP response of the proxy (status, JSON body, headers). -/
structure HTTPResponse where
  status_code : Nat
  body : PyVal
  headers : List (String × String)

/-- The rate-limit prefix of `download_document` (`server.py`): on denial the
endpoint returns the 429 `JSONResponse` with
`retry_after = max(1, int(get_reset_time(ip) - now))`, `remaining_requests: 0`
and a matching `Retry-After` header, before any petition lookup; on an
allowed check it proceeds to resolve the document via `resolve`. -/
def download_document (rl : RateLimiter) (client_ip : String) (now : Nat)
    (resolve : Unit → HTTPResponse) : HTTPResponse × RateLimiter :=
  let a := rl.is_allowed client_ip now
  if a.1 then (resolve (), a.2)
  else
    let remaining_time := max 1 (a.2.get_reset_time client_ip now - now)
    ({ status_code := 429,
       body := .dict
         [("error", .bool true),
          ("message", .str "Rate limit exceeded. USPTO allows 5 downloads per 10 seconds."),
          ("retry_after", .int remaining_time),
          ("remaining_requests", .int 0)],
       headers := [("Retry-After", toString remaining_time)] }, a.2)

/-- A sequence of `is_allowed` checks for one client at the given instants. -/
def runAllowed (rl : RateLimiter) (key : String) : List Nat → List Bool × RateLimiter
  | [] => ([], rl)
  | t :: ts =>
      let a := rl.is_allowed key t
      let rest := runAllowed a.2 key ts
      (a.1 :: rest.1, rest.2)

lemma purgeOld_keep_all {window now : Nat} {ts : List Nat}
    (h : ∀ t ∈ ts, now < t + window) : purgeOld window now ts = ts :=
  List.filter_eq_self.mpr (fun t ht => by simpa using h t ht)

/-- C9 part 1: whenever the limiter denies a client, `download_document`
returns the 429 response — `Retry-After` header and body `retry_after` both
`max(1, reset_time - now)`, `remaining_requests = 0` — and the petition
resolver is never consulted (the response is the same for every resolver). -/
theorem download_rate_limit_429 (rl : RateLimiter) (client_ip : String) (now : Nat)
    (resolve resolve2 : Unit → HTTPResponse)
    (hdenied : (rl.is_allowed client_ip now).1 = false) :
    (download_document rl client_ip now resolve).1 =
      { status_code := 429,
        body := .dict
          [("error", .bool true),
           ("message", .str "Rate limit exceeded. USPTO allows 5 downloads per 10 seconds."),
           ("retry_after", .int (Int.ofNat (max 1
             (((rl.is_allowed client_ip now).2).get_reset_time client_ip now - now)))),
           ("remaining_requests", .int 0)],
        headers := [("Retry-After", toString (max 1
          (((rl.is_allowed client_ip now).2).get_reset_time client_ip now - now)))] }
  ∧ (download_document rl client_ip now resolve).1 =
      (download_document rl client_ip now resolve2).1 := by
  unfold download_document
  dsimp only
  rw [hdenied]
  simp only [Bool.false_eq_true, if_false]
  exact ⟨rfl, trivial⟩

lemma is_allowed_spec (rl : RateLimiter) (key : String) (now : Nat) :
    (rl.is_allowed key now).1 =
      decide ((purgeOld rl.window_seconds now (rl.requests key)).length < rl.max_requests)
  ∧ ((rl.is_allowed key now).2).requests key =
      (if (purgeOld rl.window_seconds now (rl.requests key)).length < rl.max_requests
       then purgeOld rl.window_seconds now (rl.requests key) ++ [now]
       else purgeOld rl.window_seconds now (rl.requests key))
  ∧ ((rl.is_allowed key now).2).max_requests = rl.max_requests
  ∧ ((rl.is_allowed key now).2).window_seconds = rl.window_seconds := by
  unfold RateLimiter.is_allowed
  by_cases h : (purgeOld rl.window_seconds now (rl.requests key)).length < rl.max_requests
  · simp [h]
  · simp [h]

/-- C9 part 2: with the documented policy (5 requests per 10-second window),
six requests from one client inside a single window see the first five
allowed and the sixth denied. -/
theorem sixth_request_denied (ip : String) (t1 t2 t3 t4 t5 t6 : Nat)
    (h12 : t1 ≤ t2) (h23 : t2 ≤ t3) (h34 : t3 ≤ t4) (h45 : t4 ≤ t5) (h56 : t5 ≤ t6)
    (hwin : t6 < t1 + 10) :
    (runAllowed rate_limiter ip [t1, t2, t3, t4, t5, t6]).1 =
      [true, true, true, true, true, false] := by
  have hp2 : purgeOld 10 t2 [t1] = [t1] :=
    purgeOld_keep_all (by intro t ht; simp at ht; omega)
  have hp3 : purgeOld 10 t3 [t1, t2] = [t1, t2] :=
    purgeOld_keep_all (by intro t ht; simp at ht; rcases ht with h | h <;> omega)
  have hp4 : purgeOld 10 t4 [t1, t2, t3] = [t1, t2, t3] :=
    purgeOld_keep_all (by intro t ht; simp at ht; rcases ht with h | h | h <;> omega)
  have hp5 : purgeOld 10 t5 [t1, t2, t3, t4] = [t1, t2, t3, t4] :=
    purgeOld_keep_all (by intro t ht; simp at ht; rcases ht with h | h | h | h <;> omega)
  have hp6 : purgeOld 10 t6 [t1, t2, t3, t4, t5] = [t1, t2, t3, t4, t5] :=
    purgeOld_keep_all (by intro t ht; simp at ht; rcases ht with h | h | h | h | h <;> omega)
  obtain ⟨b1, r1, m1, w1⟩ := is_allowed_spec rate_limiter ip t1
  rw [show rate_limiter.requests ip = [] from rfl,
      show rate_limiter.window_seconds = 10 from rfl,
      show rate_limiter.max_requests = 5 from rfl] at b1 r1
  rw [show rate_limiter.max_requests = 5 from rfl] at m1
  rw [show rate_limiter.window_seconds = 10 from rfl] at w1
  simp only [purgeOld, List.filter_nil, List.length_nil, List.nil_append] at b1 r1
  rw [if_pos (by omega)] at r1
  simp only [show decide ((0 : Nat) < 5) = true from rfl] at b1
  obtain ⟨b2, r2, m2, w2⟩ := is_allowed_spec (rate_limiter.is_allowed ip t1).2 ip t2
  rw [r1, m1, w1, hp2] at b2 r2
  rw [m1] at m2
  rw [w1] at w2
  rw [if_pos (by simp)] at r2
  simp only [List.singleton_append, List.cons_append, List.nil_append] at r2
  simp only [List.length_singleton, show decide ((1 : Nat) < 5) = true from rfl] at b2
  obtain ⟨b3, r3, m3, w3⟩ := is_allowed_spec
    ((rate_limiter.is_allowed ip t1).2.is_allowed ip t2).2 ip t3
  rw [r2, m2, w2, hp3] at b3 r3
  rw [m2] at m3
  rw [w2] at w3
  rw [if_pos (by simp)] at r3
  simp only [List.singleton_append, List.cons_append, List.nil_append] at r3
  simp only [List.length_cons, List.length_singleton,
    show decide ((2 : Nat) < 5) = true from rfl] at b3
  obtain ⟨b4, r4, m4, w4⟩ := is_allowed_spec
    (((rate_limiter.is_allowed ip t1).2.is_allowed ip t2).2.is_allowed ip t3).2 ip t4
  rw [r3, m3, w3, hp4] at b4 r4
  rw [m3] at m4
  rw [w3] at w4
  rw [if_pos (by simp)] at r4
  simp only [List.singleton_append, List.cons_append, List.nil_append] at r4
  simp only [List.length_cons, List.length_singleton,
    show decide ((3 : Nat) < 5) = true from rfl] at b4
  obtain ⟨b5, r5, m5, w5⟩ := is_allowed_spec
    ((((rate_limiter.is_allowed ip t1).2.is_allowed ip t2).2.is_allowed
      ip t3).2.is_allowed ip t4).2 ip t5
  rw [r4, m4, w4, hp5] at b5 r5
  rw [m4] at m5
  rw [w4] at w5
  rw [if_pos (by simp)] at r5
  simp only [List.singleton_append, List.cons_append, List.nil_append] at r5
  simp only [List.length_cons, List.length_singleton,
    show decide ((4 : Nat) < 5) = true from rfl] at b5
  obtain ⟨b6, r6, m6, w6⟩ := is_allowed_spec
    (((((rate_limiter.is_allowed ip t1).2.is_allowed ip t2).2.is_allowed
      ip t3).2.is_allowed ip t4).2.is_allowed ip t5).2 ip t6
  rw [r5, m5, w5, hp6] at b6
  simp only [List.length_cons, List.length_singleton,
    show decide ((5 : Nat) < 5) = false from rfl] at b6
  simp only [runAllowed]
  rw [b1, b2, b3, b4, b5, b6]
  simp

/-- Witness for the two C9 theorems at concrete instants `0..5`. -/
theorem download_rate_limit_witness :
    ((runAllowed rate_limiter "203.0.113.7" [0, 1, 2, 3, 4, 5]).1 =
       [true, true, true, true, true, false])
  ∧ (download_document (runAllowed rate_limiter "203.0.113.7" [0, 1, 2, 3, 4]).2
       "203.0.113.7" 5
       (fun _ => { status_code := 200, body := .NoneV, headers := [] })).1.status_code
      = 429
  ∧ (download_document (runAllowed rate_limiter "203.0.113.7" [0, 1, 2, 3, 4]).2
       "203.0.113.7" 5
       (fun _ => { status_code := 200, body := .NoneV, headers := [] })).1.headers
      = [("Retry-After", "5")] := by
  refine ⟨sixth_request_denied "203.0.113.7" 0 1 2 3 4 5 (by decide) (by decide)
    (by decide) (by decide) (by decide) (by decide), ?_, ?_⟩
  · have h := download_rate_limit_429
      (runAllowed rate_limiter "203.0.113.7" [0, 1, 2, 3, 4]).2 "203.0.113.7" 5
      (fun _ => { status_code := 200, body := .NoneV, headers := [] })
      (fun _ => { status_code := 200, body := .NoneV, headers := [] }) (by decide)
    rw [h.1]
  · have h := download_rate_limit_429
      (runAllowed rate_limiter "203.0.113.7" [0, 1, 2, 3, 4]).2 "203.0.113.7" 5
      (fun _ => { status_code := 200, body := .NoneV, headers := [] })
      (fun _ => { status_code := 200, body := .NoneV, headers := [] }) (by decide)
    rw [h.1]
    rfl
